import Mathlib

/-!
Verification of the Megatron-LM-QAT checkpoint loader core
(`src/tools/checkpoint/loader_core.py` and `src/tools/checkpoint/schema_core.py`).

The development shallowly embeds the loader: tensors are lists of integer rows
(axis 0 = rows, axis 1 = columns), the downstream queue is a list of messages,
and the external shard provider (Megatron model construction and checkpoint
I/O, out of scope per the design document) is a pure function from rank
coordinates to loaded shards.  Python exceptions are an explicit `Fault`
value; `sys.exit` after pushing the "exit" sentinel is distinguished from an
exception that the top-level `load_checkpoint` wrapper converts into an
"exit" push followed by a re-raise.
-/

/-- A tensor: a list of rows.  `torch.cat(dim=0)` appends row blocks,
`torch.cat(dim=1)` appends column blocks row-wise. -/
abbrev Tensor := List (List Int)

/-- `torch.cat(ts, dim=0)`. -/
def catDim0 (ts : List Tensor) : Tensor := ts.flatten

/-- `torch.cat(ts, dim=1)` (shapes assumed row-compatible, as in the loader). -/
def catDim1 (ts : List Tensor) : Tensor :=
  match ts with
  | [] => []
  | t :: rest => rest.foldl (fun acc u => List.zipWith (fun a b => a ++ b) acc u) t

/-- `torch.chunk(t, 2, dim=0)`: two chunks, the first of size `⌈n/2⌉`. -/
def chunk2 (t : Tensor) : Tensor × Tensor :=
  (t.take ((t.length + 1) / 2), t.drop ((t.length + 1) / 2))

/-- loader_core.py lines 348-356 and 364-371: the gated-linear-unit merge
keeps all first halves of the tensor-parallel shards, concatenated along
axis 0 (the "...weight W" / "...bias W" output). -/
def mergeSwigluW (ts : List Tensor) : Tensor :=
  catDim0 (ts.map (fun t => (chunk2 t).1))

/-- Second halves of the tensor-parallel shards, concatenated along axis 0
(the "...weight V" / "...bias V" output). -/
def mergeSwigluV (ts : List Tensor) : Tensor :=
  catDim0 (ts.map (fun t => (chunk2 t).2))

inductive ModelTypeK
| GPT
| BERT
deriving DecidableEq, Repr

inductive ImplK
| localEngine
| transformerEngine
deriving DecidableEq, Repr

inductive PosEmbK
| learned_absolute
| rope
deriving DecidableEq, Repr

/-- schema_core.py lines 10-14. -/
def get_core_transformer_block_key (model_key : ModelTypeK) : String :=
  match model_key with
  | .GPT => "decoder"
  | .BERT => "encoder"

/-- A model schema: the section mappings of `CoreSchema.__init__`
(schema_core.py lines 17-49), logical role key to storage-path template. -/
structure ModelSchema where
  embeddings : List (String × String)
  layerPfx : String
  layer : List (String × String)
  final_norm : List (String × String)
  output_layer : List (String × String)
  pooler : List (String × String)
  lm_head : List (String × String)
  binary_head : List (String × String)
deriving DecidableEq, Repr

/-- schema_core.py lines 17-49: `CoreSchema.__init__`. -/
def coreSchema (model_type : ModelTypeK) (layer_schema : List (String × String)) :
    ModelSchema :=
  let block_key := get_core_transformer_block_key model_type
  { embeddings := [("pos", "embedding.position_embeddings.weight"),
                   ("word", "embedding.word_embeddings.weight")],
    layerPfx := block_key ++ ".layers",
    layer := layer_schema,
    final_norm := [("weight", block_key ++ ".final_layernorm.weight"),
                   ("bias", block_key ++ ".final_layernorm.bias")],
    output_layer := [("weight", "output_layer.weight")],
    pooler := [("weight", "pooler.dense.weight"),
               ("bias", "pooler.dense.bias")],
    lm_head := [("dense_weight", "lm_head.dense.weight"),
                ("dense_bias", "lm_head.dense.bias"),
                ("norm_weight", "lm_head.layer_norm.weight"),
                ("norm_bias", "lm_head.layer_norm.bias")],
    binary_head := [("weight", "binary_head.weight"),
                    ("bias", "binary_head.bias")] }

/-- schema_core.py lines 52-79: `CoreLocalSchema` layer mapping. -/
def coreLocalLayerSchema : List (String × String) :=
  [("self_attn_norm_weight", "input_layernorm.weight"),
   ("self_attn_norm_bias", "input_layernorm.bias"),
   ("self_attn_qkv_weight", "self_attention.linear_qkv.weight"),
   ("self_attn_qkv_bias", "self_attention.linear_qkv.bias"),
   ("self_attn_proj_weight", "self_attention.linear_proj.weight"),
   ("self_attn_proj_bias", "self_attention.linear_proj.bias"),
   ("self_attn_q_layernorm_weight", "self_attention.q_layernorm.weight"),
   ("self_attn_q_layernorm_bias", "self_attention.q_layernorm.bias"),
   ("self_attn_k_layernorm_weight", "self_attention.k_layernorm.weight"),
   ("self_attn_k_layernorm_bias", "self_attention.k_layernorm.bias"),
   ("mlp_norm_weight", "pre_mlp_layernorm.weight"),
   ("mlp_norm_bias", "pre_mlp_layernorm.bias"),
   ("mlp_fc1_weight", "mlp.linear_fc1.weight"),
   ("mlp_fc1_bias", "mlp.linear_fc1.bias"),
   ("mlp_fc2_weight", "mlp.linear_fc2.weight"),
   ("mlp_fc2_bias", "mlp.linear_fc2.bias"),
   ("mlp_xielu_alpha_p", "mlp.activation_func.alpha_p"),
   ("mlp_xielu_alpha_n", "mlp.activation_func.alpha_n")]

/-- schema_core.py lines 82-111: `CoreTESchema` layer mapping (identical
role/path pairs to the local variant in this revision). -/
def coreTELayerSchema : List (String × String) :=
  [("self_attn_norm_weight", "input_layernorm.weight"),
   ("self_attn_norm_bias", "input_layernorm.bias"),
   ("self_attn_qkv_weight", "self_attention.linear_qkv.weight"),
   ("self_attn_qkv_bias", "self_attention.linear_qkv.bias"),
   ("self_attn_proj_weight", "self_attention.linear_proj.weight"),
   ("self_attn_proj_bias", "self_attention.linear_proj.bias"),
   ("self_attn_q_layernorm_weight", "self_attention.q_layernorm.weight"),
   ("self_attn_q_layernorm_bias", "self_attention.q_layernorm.bias"),
   ("self_attn_k_layernorm_weight", "self_attention.k_layernorm.weight"),
   ("self_attn_k_layernorm_bias", "self_attention.k_layernorm.bias"),
   ("mlp_norm_weight", "pre_mlp_layernorm.weight"),
   ("mlp_norm_bias", "pre_mlp_layernorm.bias"),
   ("mlp_fc1_weight", "mlp.linear_fc1.weight"),
   ("mlp_fc1_bias", "mlp.linear_fc1.bias"),
   ("mlp_fc2_weight", "mlp.linear_fc2.weight"),
   ("mlp_fc2_bias", "mlp.linear_fc2.bias"),
   ("mlp_xielu_alpha_p", "mlp.activation_func.alpha_p"),
   ("mlp_xielu_alpha_n", "mlp.activation_func.alpha_n")]

/-- schema_core.py lines 114-146: `CoreMoETESchema` layer mapping with
`num_local_experts = num_experts // expert_model_parallel_size` expert-indexed
entries.  Note: there is no unindexed `mlp_fc1_weight` / `mlp_fc2_weight`
role in this variant. -/
def coreMoETELayerSchema (num_experts expert_model_parallel_size : Nat) :
    List (String × String) :=
  let num_local_experts := num_experts / expert_model_parallel_size
  [("self_attn_norm_weight", "self_attention.linear_qkv.layer_norm_weight"),
   ("self_attn_norm_bias", "self_attention.linear_qkv.layer_norm_bias"),
   ("self_attn_qkv_weight", "self_attention.linear_qkv.weight"),
   ("self_attn_qkv_bias", "self_attention.linear_qkv.bias"),
   ("self_attn_proj_weight", "self_attention.linear_proj.weight"),
   ("self_attn_proj_bias", "self_attention.linear_proj.bias"),
   ("self_attn_q_layernorm_weight", "self_attention.q_layernorm.weight"),
   ("self_attn_q_layernorm_bias", "self_attention.q_layernorm.bias"),
   ("self_attn_k_layernorm_weight", "self_attention.k_layernorm.weight"),
   ("self_attn_k_layernorm_bias", "self_attention.k_layernorm.bias"),
   ("mlp_norm_weight", "pre_mlp_layernorm.weight"),
   ("mlp_norm_bias", "pre_mlp_layernorm.bias"),
   ("router_weight", "mlp.router.weight")]
  ++ ((List.range num_local_experts).map (fun e =>
        ("mlp_fc1_weight." ++ toString e,
         "mlp.experts.local_experts." ++ toString e ++ ".linear_fc1.weight")))
  ++ ((List.range num_local_experts).map (fun e =>
        ("mlp_fc2_weight." ++ toString e,
         "mlp.experts.local_experts." ++ toString e ++ ".linear_fc2.weight")))
  ++ ((List.range num_local_experts).map (fun e =>
        ("mlp_xielu_alpha_p." ++ toString e,
         "mlp.experts.local_experts." ++ toString e ++ ".activation_func.alpha_p.weight")))
  ++ ((List.range num_local_experts).map (fun e =>
        ("mlp_xielu_alpha_n." ++ toString e,
         "mlp.experts.local_experts." ++ toString e ++ ".activation_func.alpha_n.weight")))

/-- Faults: Python exceptions raised inside `_load_checkpoint`. -/
inductive Fault
| assertFail (what : String)
| keyError (key : String)
| typeError (what : String)
| indexError
deriving DecidableEq, Repr

/-- schema_core.py lines 149-163: `get_model_schema`.  The MoE variant is
only valid with the transformer-engine implementation (`assert
transformer_impl == "transformer_engine"`). -/
def get_model_schema (model_type : ModelTypeK) (transformer_impl : ImplK)
    (num_experts : Option Nat) (expert_model_parallel_size : Nat) :
    Except Fault ModelSchema :=
  match num_experts with
  | some n =>
    if n > 0 then
      match transformer_impl with
      | .transformerEngine =>
          .ok (coreSchema model_type (coreMoETELayerSchema n expert_model_parallel_size))
      | .localEngine => .error (.assertFail "MoE requires transformer_engine")
    else
      match transformer_impl with
      | .localEngine => .ok (coreSchema model_type coreLocalLayerSchema)
      | .transformerEngine => .ok (coreSchema model_type coreTELayerSchema)
  | none =>
    match transformer_impl with
    | .localEngine => .ok (coreSchema model_type coreLocalLayerSchema)
    | .transformerEngine => .ok (coreSchema model_type coreTELayerSchema)

/-- The loader configuration: the fields of `margs` / `args` that
`_load_checkpoint` reads after `validate_args` (loader_core.py lines
112-127, 199-253).  The `check_for_arg` defaults have already been applied,
so every field is total here. -/
structure Config where
  model_type : ModelTypeK
  transformer_impl : ImplK
  num_experts : Option Nat
  expert_model_parallel_size : Nat
  tensor_parallel_size : Nat
  pipeline_parallel_size : Nat
  virtual_pipeline_size : Option Nat
  num_layers : Nat
  position_embedding_type : PosEmbK
  norm_has_bias : Bool
  add_bias_linear : Bool
  add_qkv_bias : Bool
  swiglu : Bool
  untie_embeddings_and_output_weights : Bool
  bert_binary_head : Bool
  test_logits : Bool
  true_vocab_size : Option Nat
  vocab_file_size : Option Nat
deriving Repr

/-- loader_core.py lines 216-217: `vp_size = margs.virtual_pipeline_model_parallel_size;
if vp_size is None: vp_size = 1`. -/
def vp_size (cfg : Config) : Nat := cfg.virtual_pipeline_size.getD 1

/-- One loaded model shard, as the (external, out-of-scope) shard provider
materializes it: it reports its transformer-layer count and resolves
storage paths to tensors (`none` when the attribute is absent or `None`).
`sid` is an identity tag used only to reason about which shard objects the
walker retains. -/
structure Shard where
  sid : Nat
  numLayers : Nat
  fetch : String → Option Tensor

/-- What one `load_checkpoint(model_, None, None)` call at a fixed
(pipeline rank, tensor-parallel rank) produces: the per-virtual-pipeline
sub-models and the consumed-sample counters the checkpoint reports
(loader_core.py lines 152-183). -/
structure RankLoad where
  models : List Shard
  consumed_train_samples : Nat
  consumed_valid_samples : Nat

/-- The external shard provider plus the data of the fabricated-input
forward pass of the `test_logits` path (loader_core.py lines 425-461),
which is external torch compute and enters the stream as opaque tensors. -/
structure Provider where
  load : Nat → Nat → RankLoad
  logits_tokens : Tensor
  logits_position_ids : Tensor
  logits_attention_mask : Tensor
  logits_output : Tensor

/-- The nonlocal `consumed_train_samples` / `consumed_valid_samples`
closure state of `_load_checkpoint` (loader_core.py lines 141-142). -/
structure CState where
  ct : Option Nat
  cv : Option Nat
deriving DecidableEq, Repr

/-- The metadata record `md` (loader_core.py lines 230-261), restricted to
the fields this embedding carries. -/
structure Metadata where
  model_type : ModelTypeK
  num_layers : Nat
  bert_binary_head : Bool
  output_layer : Bool
  position_embedding_type : PosEmbK
  linear_bias : Bool
  qkv_bias : Bool
  norm_has_bias : Bool
  swiglu : Bool
  previous_tensor_parallel_size : Nat
  previous_pipeline_parallel_size : Nat
  true_vocab_size : Option Nat
  consumed_train_samples : Option Nat
  consumed_valid_samples : Option Nat
deriving DecidableEq, Repr

/-- A value stored under a field label of a named-tensor message.
`val` is an ordinary assignment (the tensor, or Python `None`);
`tup` is a one-element tuple, produced by a trailing comma as in
loader_core.py line 413. -/
inductive TVal
| val (t : Option Tensor)
| tup (t : Option Tensor)
deriving DecidableEq, Repr

/-- One item pushed onto the queue. -/
inductive Msg
| meta (md : Metadata)
| named (name : String) (fields : List (String × TVal))
| done
| exitS
deriving DecidableEq, Repr

/-- How the run ends: normal completion ("done" pushed), `sys.exit` after
the run itself pushed "exit" (a `SystemExit`, which the `except Exception`
wrapper does not catch), or a raised exception. -/
inductive Outcome
| completed
| exited
| raised (f : Fault)
deriving DecidableEq, Repr

/-- First storage path bound to a logical role key in a section mapping. -/
def lookupStr (key : String) (l : List (String × String)) : Option String :=
  (l.find? (fun p => p.1 = key)).map (fun p => p.2)

/-- Modelled from the spec: `schema_base.ModelSchema` (the repository file
`tools/checkpoint/schema_base.py` is not under `src/`).  Per spec section
4.1 a schema exposes `get(section, shard)` returning the mapping of the
section's named tensors: each logical role resolves through the shard's
storage-path lookup; a role key outside the section mapping is a lookup
failure (outer `none`, a Python `KeyError`), and a present role whose
tensor is absent in the shard yields `some none` (Python `None`). -/
def schemaGet (sec : List (String × String)) (shard : Shard) :
    String → Option (Option Tensor) :=
  fun key => (lookupStr key sec).map shard.fetch

/-- Modelled from the spec: `schema_base.ModelSchema.get_layer(shard, i)`
resolves the layer section's roles against layer `i`'s storage prefix
(spec section 4.1; the prefix is `f"{block_key}.layers"` per
schema_core.py line 26). -/
def schemaGetLayer (s : ModelSchema) (shard : Shard) (i : Nat) :
    String → Option (Option Tensor) :=
  fun key => (lookupStr key s.layer).map
    (fun path => shard.fetch (s.layerPfx ++ "." ++ toString i ++ "." ++ path))

/-- Modelled from the spec: `schema_base.ModelSchema.get_num_layers(shard)`
returns the shard's transformer-layer count (spec section 4.1). -/
def schemaNumLayers (shard : Shard) : Nat := shard.numLayers

/-- `mapping[key]`: Python raises `KeyError` when the role key is not in
the section mapping. -/
def getKey (layer : String → Option (Option Tensor)) (key : String) :
    Except Fault (Option Tensor) :=
  match layer key with
  | none => .error (.keyError key)
  | some v => .ok v

/-- loader_core.py lines 199-210: determination of the true (non-padded)
vocab size.  The mismatch abort (lines 205-208) sits inside the
`elif args.vocab_file is not None` arm, which is only reached when
`args.true_vocab_size is None`, so its guard re-tests a condition that is
already false there. -/
def computeTrueVocab (true_vocab_size vocab_file_size : Option Nat) :
    Except Unit (Option Nat) :=
  if true_vocab_size.isSome then
    .ok true_vocab_size
  else if h : vocab_file_size.isSome then
    let n := vocab_file_size.get h
    if true_vocab_size.isSome && decide (some n ≠ true_vocab_size) then
      .error ()
    else
      .ok (some n)
  else
    .ok none

/-- loader_core.py line 220: the chained comparison
`tp_size == vp_size == vp_size == 1` of the `test_logits` assertion,
evaluated exactly as Python chains it. -/
def logitsGeometryOk (cfg : Config) : Bool :=
  (cfg.tensor_parallel_size == vp_size cfg)
    && (vp_size cfg == vp_size cfg)
    && (vp_size cfg == 1)

/-- loader_core.py lines 176-183: compare this rank's consumed-sample
counters against the first observed values, adopting them on first sight. -/
def checkConsumed (st : CState) (rl : RankLoad) : Except Fault CState :=
  match st.ct with
  | some c =>
    if rl.consumed_train_samples = c then
      match st.cv with
      | some v =>
        if rl.consumed_valid_samples = v then .ok st
        else .error (.assertFail "consumed_valid_samples")
      | none => .ok { st with cv := some rl.consumed_valid_samples }
    else .error (.assertFail "consumed_train_samples")
  | none =>
    let st1 : CState := { st with ct := some rl.consumed_train_samples }
    match st1.cv with
    | some v =>
      if rl.consumed_valid_samples = v then .ok st1
      else .error (.assertFail "consumed_valid_samples")
    | none => .ok { st1 with cv := some rl.consumed_valid_samples }

/-- loader_core.py lines 184-185: `models[vp_rank].append(model_[vp_rank])`
for every virtual-pipeline rank; indexing past `model_`'s length is a
Python `IndexError`. -/
def appendModels (vpS : Nat) (rl : RankLoad) (acc : List (List Shard)) :
    Except Fault (List (List Shard)) :=
  match (List.range vpS).mapM (fun v => rl.models.get? v) with
  | none => .error .indexError
  | some ms => .ok (List.zipWith (fun a m => a ++ [m]) acc ms)

/-- loader_core.py lines 152-188: the tensor-parallel rank loop of
`get_models`. -/
def gmLoop (prov : Provider) (vpS pp : Nat) (ranks : List Nat) (st : CState)
    (acc : List (List Shard)) : Except Fault (List (List Shard) × CState) :=
  match ranks with
  | [] => .ok (acc, st)
  | r :: rest =>
    let rl := prov.load pp r
    match checkConsumed st rl with
    | .error f => .error f
    | .ok st1 =>
      match appendModels vpS rl acc with
      | .error f => .error f
      | .ok acc1 => gmLoop prov vpS pp rest st1 acc1

/-- loader_core.py lines 143-190: `get_models(count, dtype)` for pipeline
rank `pp`, returning `models[vp_rank][tp_rank]` and the updated nonlocal
consumed-sample state. -/
def get_models (prov : Provider) (vpS pp count : Nat) (st : CState) :
    Except Fault (List (List Shard) × CState) :=
  gmLoop prov vpS pp (List.range count) st ((List.range vpS).map (fun _ => []))

/-- `torch.cat` over a collected per-rank list: any `None` entry is a
Python `TypeError`. -/
def catOpt0 (ts : List (Option Tensor)) : Except Fault Tensor :=
  match ts.mapM (fun t => t) with
  | none => .error (.typeError "cat dim 0 over None")
  | some vs => .ok (catDim0 vs)

/-- `torch.cat(..., dim=1)` over a collected per-rank list. -/
def catOpt1 (ts : List (Option Tensor)) : Except Fault Tensor :=
  match ts.mapM (fun t => t) with
  | none => .error (.typeError "cat dim 1 over None")
  | some vs => .ok (catDim1 vs)

/-- `torch.chunk` over per-rank entries: chunking `None` is a `TypeError`. -/
def seqTensors (ts : List (Option Tensor)) : Except Fault (List Tensor) :=
  match ts.mapM (fun t => t) with
  | none => .error (.typeError "chunk of None")
  | some vs => .ok vs

/-- loader_core.py lines 305-307: input/post norm biases when the
normalization has a bias. -/
def normBiasFields (cfg : Config) (layer : String → Option (Option Tensor)) :
    Except Fault (List (String × TVal)) :=
  if cfg.norm_has_bias then
    (getKey layer "self_attn_norm_bias").bind (fun a =>
    (getKey layer "mlp_norm_bias").map (fun b =>
      [("input norm bias", TVal.val a), ("post norm bias", TVal.val b)]))
  else .ok []

/-- loader_core.py lines 308-310: the row-replicated column-parallel
biases, taken from the tensor-parallel rank 0 layer mapping only. -/
def linBiasFields (cfg : Config) (layer : String → Option (Option Tensor)) :
    Except Fault (List (String × TVal)) :=
  if cfg.add_bias_linear then
    (getKey layer "self_attn_proj_bias").bind (fun a =>
    (getKey layer "mlp_fc2_bias").map (fun b =>
      [("dense bias", TVal.val a), ("mlp l1 bias", TVal.val b)]))
  else .ok []

/-- loader_core.py lines 317-320: K-layernorm parameters, added only when
`layer.get(...)` finds a tensor. -/
def kNormFields (cfg : Config) (layer : String → Option (Option Tensor)) :
    Except Fault (List (String × TVal)) :=
  match layer "self_attn_k_layernorm_weight" with
  | some (some w) =>
    if cfg.norm_has_bias then
      (getKey layer "self_attn_k_layernorm_bias").map (fun b =>
        [("k norm weight", TVal.val (some w)), ("k norm bias", TVal.val b)])
    else .ok [("k norm weight", TVal.val (some w))]
  | _ => .ok []

/-- loader_core.py lines 313-316: Q-layernorm parameters. -/
def qNormFields (cfg : Config) (layer : String → Option (Option Tensor)) :
    Except Fault (List (String × TVal)) :=
  match layer "self_attn_q_layernorm_weight" with
  | some (some w) =>
    if cfg.norm_has_bias then
      (getKey layer "self_attn_q_layernorm_bias").map (fun b =>
        [("q norm weight", TVal.val (some w)), ("q norm bias", TVal.val b)])
    else .ok [("q norm weight", TVal.val (some w))]
  | _ => .ok []

/-- loader_core.py lines 321-328: xielu activation parameters, added only
when present (`.cpu()` is a no-op here). -/
def xieluFields (layer : String → Option (Option Tensor)) :
    List (String × TVal) :=
  (match layer "mlp_xielu_alpha_p" with
   | some (some w) => [("mlp xielu alpha p", TVal.val (some w))]
   | _ => [])
  ++ (match layer "mlp_xielu_alpha_n" with
      | some (some w) => [("mlp xielu alpha n", TVal.val (some w))]
      | _ => [])

/-- loader_core.py lines 299-328: the non-parallel part of a transformer
layer message, read from the tensor-parallel rank 0 layer mapping. -/
def serialFields (cfg : Config) (layer : String → Option (Option Tensor)) :
    Except Fault (List (String × TVal)) :=
  (getKey layer "self_attn_norm_weight").bind (fun inw =>
  (getKey layer "mlp_norm_weight").bind (fun pnw =>
  (normBiasFields cfg layer).bind (fun nb =>
  (linBiasFields cfg layer).bind (fun lb =>
  (qNormFields cfg layer).bind (fun qf =>
  (kNormFields cfg layer).map (fun kf =>
    [("input norm weight", TVal.val inw), ("post norm weight", TVal.val pnw)]
      ++ nb ++ lb ++ qf ++ kf ++ xieluFields layer))))))

/-- The six per-rank tensor lists collected by loader_core.py lines
330-346. -/
structure ParTensors where
  qkv_weight : List (Option Tensor)
  qkv_bias : List (Option Tensor)
  dense_weight : List (Option Tensor)
  mlp_l0_weight : List (Option Tensor)
  mlp_l0_bias : List (Option Tensor)
  mlp_l1_weight : List (Option Tensor)

/-- loader_core.py lines 330-346: grab all parallel tensors for this layer
from every tensor-parallel rank's layer mapping. -/
def gatherPar (cfg : Config) (schema : ModelSchema) (models : List Shard)
    (layer_num : Nat) : Except Fault ParTensors :=
  (models.mapM (fun m => getKey (schemaGetLayer schema m layer_num) "self_attn_qkv_weight")).bind (fun qw =>
  (models.mapM (fun m => getKey (schemaGetLayer schema m layer_num) "self_attn_proj_weight")).bind (fun dw =>
  (models.mapM (fun m => getKey (schemaGetLayer schema m layer_num) "mlp_fc1_weight")).bind (fun l0w =>
  (models.mapM (fun m => getKey (schemaGetLayer schema m layer_num) "mlp_fc2_weight")).bind (fun l1w =>
  (if cfg.add_qkv_bias then
     models.mapM (fun m => getKey (schemaGetLayer schema m layer_num) "self_attn_qkv_bias")
   else .ok []).bind (fun qb =>
  (if cfg.add_bias_linear then
     models.mapM (fun m => getKey (schemaGetLayer schema m layer_num) "mlp_fc1_bias")
   else .ok []).map (fun l0b =>
    { qkv_weight := qw, qkv_bias := qb, dense_weight := dw,
      mlp_l0_weight := l0w, mlp_l0_bias := l0b, mlp_l1_weight := l1w }))))))

/-- loader_core.py lines 348-356: first MLP linear weight, split per shard
into gate/value halves under swiglu. -/
def l0WeightFields (cfg : Config) (ts : List (Option Tensor)) :
    Except Fault (List (String × TVal)) :=
  if cfg.swiglu then
    (seqTensors ts).map (fun vs =>
      [("mlp l0 weight W", TVal.val (some (mergeSwigluW vs))),
       ("mlp l0 weight V", TVal.val (some (mergeSwigluV vs)))])
  else
    (catOpt0 ts).map (fun w => [("mlp l0 weight", TVal.val (some w))])

/-- loader_core.py lines 362-363. -/
def qkvBiasFields (cfg : Config) (ts : List (Option Tensor)) :
    Except Fault (List (String × TVal)) :=
  if cfg.add_qkv_bias then
    (catOpt0 ts).map (fun b => [("qkv bias", TVal.val (some b))])
  else .ok []

/-- loader_core.py lines 364-371: first MLP linear bias, gate/value split
under swiglu. -/
def l0BiasFields (cfg : Config) (ts : List (Option Tensor)) :
    Except Fault (List (String × TVal)) :=
  if cfg.add_bias_linear then
    if cfg.swiglu then
      (seqTensors ts).map (fun vs =>
        [("mlp l0 bias W", TVal.val (some (mergeSwigluW vs))),
         ("mlp l0 bias V", TVal.val (some (mergeSwigluV vs)))])
    else
      (catOpt0 ts).map (fun b => [("mlp l0 bias", TVal.val (some b))])
  else .ok []

/-- loader_core.py lines 348-371: merge the collected parallel tensors. -/
def mergePar (cfg : Config) (p : ParTensors) :
    Except Fault (List (String × TVal)) :=
  (l0WeightFields cfg p.mlp_l0_weight).bind (fun l0f =>
  (catOpt0 p.qkv_weight).bind (fun qkvW =>
  (catOpt1 p.dense_weight).bind (fun denseW =>
  (catOpt1 p.mlp_l1_weight).bind (fun l1W =>
  (qkvBiasFields cfg p.qkv_bias).bind (fun qbf =>
  (l0BiasFields cfg p.mlp_l0_bias).map (fun l0bf =>
    l0f ++ [("qkv weight", TVal.val (some qkvW)),
            ("dense weight", TVal.val (some denseW)),
            ("mlp l1 weight", TVal.val (some l1W))] ++ qbf ++ l0bf))))))

/-- loader_core.py lines 298-372: build one transformer layer message
(without its `name` tag). -/
def buildLayerMessage (cfg : Config) (schema : ModelSchema)
    (models : List Shard) (layer_num : Nat) :
    Except Fault (List (String × TVal)) :=
  match models.head? with
  | none => .error .indexError
  | some m0 =>
    (serialFields cfg (schemaGetLayer schema m0 layer_num)).bind (fun part1 =>
    (gatherPar cfg schema models layer_num).bind (fun par =>
    (mergePar cfg par).map (fun part2 => part1 ++ part2)))

/-- loader_core.py lines 298-375: the per-stage layer loop, accumulating
`queue_put(f"transformer layer {total_layer_num}", message)` pushes; a
fault stops the walk with the messages already pushed. -/
def stageLayers (cfg : Config) (schema : ModelSchema) (models : List Shard)
    (nums : List Nat) (total0 : Nat) : List Msg × Option Fault :=
  match nums with
  | [] => ([], none)
  | i :: rest =>
    match buildLayerMessage cfg schema models i with
    | .error f => ([], some f)
    | .ok fields =>
      let m := Msg.named ("transformer layer " ++ toString (total0 + i)) fields
      let (ms, f) := stageLayers cfg schema models rest total0
      (m :: ms, f)

/-- The mutable walker state of the emission loop: the cached stage
matrices `all_models`, the nonlocal consumed-sample state, the running
`total_layer_num`, the current `models` binding, and the messages pushed by
the loop so far. -/
structure LoopSt where
  allModels : List (List (List Shard))
  cst : CState
  total : Nat
  cur : List Shard
  msgs : List Msg

/-- loader_core.py lines 297-375: the emission part of one pipeline-stage
visit: bind `models = all_models[pp_rank][vp_rank]` and emit the stage's
layer messages. -/
def ppStepEmit (cfg : Config) (schema : ModelSchema)
    (vp pp : Nat) (st1 : LoopSt) : LoopSt × Option Fault :=
  match st1.allModels.get? pp with
  | none => (st1, some Fault.indexError)
  | some pmx =>
    match pmx.get? vp with
    | none => (st1, some Fault.indexError)
    | some models =>
      let st2 := { st1 with cur := models }
      match models.head? with
      | none => (st2, some Fault.indexError)
      | some m0 =>
        let r := stageLayers cfg schema models (List.range (schemaNumLayers m0)) st2.total
        ({ st2 with total := st2.total + r.1.length, msgs := st2.msgs ++ r.1 }, r.2)

/-- loader_core.py lines 292-375: one pipeline-stage visit at virtual rank
`vp`: lazily load the stage on its first visit (`pp > 0`, `vp = 0`), then
emit its layer messages. -/
def ppStep (cfg : Config) (prov : Provider) (schema : ModelSchema)
    (vp pp : Nat) (st : LoopSt) : LoopSt × Option Fault :=
  let loaded : Except Fault LoopSt :=
    if pp > 0 then
      if vp = 0 then
        (get_models prov (vp_size cfg) pp cfg.tensor_parallel_size st.cst).map
          (fun r => { st with allModels := st.allModels ++ [r.1], cst := r.2 })
      else .ok st
    else .ok st
  match loaded with
  | .error f => (st, some f)
  | .ok st1 => ppStepEmit cfg schema vp pp st1

/-- loader_core.py lines 292-375: the pipeline loop of one virtual pass. -/
def ppLoop (cfg : Config) (prov : Provider) (schema : ModelSchema)
    (vp : Nat) (pps : List Nat) (st : LoopSt) : LoopSt × Option Fault :=
  match pps with
  | [] => (st, none)
  | p :: rest =>
    match ppStep cfg prov schema vp p st with
    | (st1, some f) => (st1, some f)
    | (st1, none) => ppLoop cfg prov schema vp rest st1

/-- loader_core.py lines 290-375: the outer virtual-pipeline loop. -/
def vpLoop (cfg : Config) (prov : Provider) (schema : ModelSchema)
    (vps : List Nat) (st : LoopSt) : LoopSt × Option Fault :=
  match vps with
  | [] => (st, none)
  | v :: rest =>
    match ppLoop cfg prov schema v (List.range cfg.pipeline_parallel_size) st with
    | (st1, some f) => (st1, some f)
    | (st1, none) => vpLoop cfg prov schema rest st1

/-- loader_core.py lines 277-286: the embeddings message, word tables
concatenated along the vocabulary axis, position table from rank 0 only
when learned-absolute, asserted absent otherwise. -/
def embMessage (cfg : Config) (schema : ModelSchema) (models : List Shard) :
    Except Fault Msg :=
  (models.mapM (fun m => getKey (schemaGet schema.embeddings m) "word")).bind (fun ws =>
  (catOpt0 ws).bind (fun word =>
  match models.head? with
  | none => .error .indexError
  | some m0 =>
    (getKey (schemaGet schema.embeddings m0) "pos").bind (fun pos =>
    if cfg.position_embedding_type = PosEmbK.learned_absolute then
      .ok (Msg.named "embeddings"
        [("word embeddings", TVal.val (some word)),
         ("position embeddings", TVal.val pos)])
    else
      match pos with
      | some _ => .error (.assertFail "embeddings pos is None")
      | none => .ok (Msg.named "embeddings" [("word embeddings", TVal.val (some word))]))))

/-- loader_core.py lines 377-384: final norm from tensor-parallel rank 0 of
the last visited stage. -/
def finalNormMessage (cfg : Config) (schema : ModelSchema) (models : List Shard) :
    Except Fault Msg :=
  match models.head? with
  | none => .error .indexError
  | some m0 =>
    let fn := schemaGet schema.final_norm m0
    (getKey fn "weight").bind (fun w =>
    if cfg.norm_has_bias then
      (getKey fn "bias").map (fun b =>
        Msg.named "final norm" [("weight", TVal.val w), ("bias", TVal.val b)])
    else .ok (Msg.named "final norm" [("weight", TVal.val w)]))

/-- loader_core.py lines 386-392: the output-layer message, emitted only
when embeddings and output weights are untied. -/
def outputSeg (cfg : Config) (schema : ModelSchema) (models : List Shard) :
    Except Fault (List Msg) :=
  if cfg.untie_embeddings_and_output_weights then
    (models.mapM (fun m => getKey (schemaGet schema.output_layer m) "weight")).bind (fun ws =>
    (catOpt0 ws).map (fun w =>
      [Msg.named "output layer" [("weight", TVal.val (some w))]]))
  else .ok []

/-- loader_core.py lines 397-403: the BERT pooler message. -/
def poolerMessage (schema : ModelSchema) (m0 : Shard) : Except Fault Msg :=
  let p := schemaGet schema.pooler m0
  (getKey p "weight").bind (fun w =>
  (getKey p "bias").map (fun b =>
    Msg.named "pooler" [("weight", TVal.val w), ("bias", TVal.val b)]))

/-- loader_core.py lines 405-414: the BERT LM-head message.  Source line
413 reads `message["norm bias"] = lm_head["norm_bias"],` — the trailing
comma makes the stored value a one-element tuple, embedded as `TVal.tup`. -/
def lmHeadMessage (cfg : Config) (schema : ModelSchema) (m0 : Shard) :
    Except Fault Msg :=
  let lm := schemaGet schema.lm_head m0
  (getKey lm "dense_weight").bind (fun dw =>
  (getKey lm "dense_bias").bind (fun db =>
  (getKey lm "norm_weight").bind (fun nw =>
  (if cfg.norm_has_bias then
     (getKey lm "norm_bias").map (fun nb => [("norm bias", TVal.tup nb)])
   else .ok []).map (fun nbf =>
    Msg.named "lm head"
      ([("dense weight", TVal.val dw), ("dense bias", TVal.val db),
        ("norm weight", TVal.val nw)] ++ nbf)))))

/-- loader_core.py lines 416-423: the BERT binary-head message. -/
def binaryHeadMessage (schema : ModelSchema) (m0 : Shard) : Except Fault Msg :=
  let b := schemaGet schema.binary_head m0
  (getKey b "weight").bind (fun w =>
  (getKey b "bias").map (fun bi =>
    Msg.named "binary head" [("weight", TVal.val w), ("bias", TVal.val bi)]))

/-- loader_core.py lines 394-423: the encoder-only task-head segment. -/
def bertSeg (cfg : Config) (schema : ModelSchema) (models : List Shard) :
    Except Fault (List Msg) :=
  if cfg.model_type = ModelTypeK.BERT then
    match models.head? with
    | none => .error .indexError
    | some m0 =>
      (poolerMessage schema m0).bind (fun pm =>
      (lmHeadMessage cfg schema m0).bind (fun lh =>
      (if cfg.bert_binary_head then
         (binaryHeadMessage schema m0).map (fun bh => [bh])
       else .ok []).map (fun bhs => [pm, lh] ++ bhs)))
  else .ok []

/-- loader_core.py lines 425-461: the fabricated-input validation message.
The forward pass itself is external torch compute; its tensors come from
the provider. -/
def logitsMessage (prov : Provider) : Msg :=
  Msg.named "logits_check"
    [("tokens", TVal.val (some prov.logits_tokens)),
     ("position_ids", TVal.val (some prov.logits_position_ids)),
     ("attention_mask", TVal.val (some prov.logits_attention_mask)),
     ("output", TVal.val (some prov.logits_output))]

/-- loader_core.py lines 230-261: the metadata record. -/
def mkMetadata (cfg : Config) (tvs : Option Nat) (cst : CState) : Metadata :=
  { model_type := cfg.model_type,
    num_layers := cfg.num_layers,
    bert_binary_head := cfg.bert_binary_head,
    output_layer := cfg.untie_embeddings_and_output_weights,
    position_embedding_type := cfg.position_embedding_type,
    linear_bias := cfg.add_bias_linear,
    qkv_bias := cfg.add_qkv_bias,
    norm_has_bias := cfg.norm_has_bias,
    swiglu := cfg.swiglu,
    previous_tensor_parallel_size := cfg.tensor_parallel_size,
    previous_pipeline_parallel_size := cfg.pipeline_parallel_size,
    true_vocab_size := tvs,
    consumed_train_samples := cst.ct,
    consumed_valid_samples := cst.cv }

/-- loader_core.py lines 34-464: `_load_checkpoint(queue, args)`.  Returns
the messages pushed onto the queue, in order, and how the run ended. -/
def loadCheckpointInner (cfg : Config) (prov : Provider) :
    List Msg × Outcome :=
  match computeTrueVocab cfg.true_vocab_size cfg.vocab_file_size with
  | .error _ => ([Msg.exitS], Outcome.exited)
  | .ok true_vocab_size =>
  if cfg.test_logits && !(logitsGeometryOk cfg) then
    ([], Outcome.raised (Fault.assertFail "tp_size == vp_size == vp_size == 1"))
  else if cfg.test_logits && !(cfg.model_type == ModelTypeK.GPT) then
    ([], Outcome.raised (Fault.assertFail "model_type == GPT"))
  else
    match get_models prov (vp_size cfg) 0 cfg.tensor_parallel_size ⟨none, none⟩ with
    | .error f => ([], Outcome.raised f)
    | .ok (mx0, cst) =>
      match mx0.head? with
      | none => ([], Outcome.raised Fault.indexError)
      | some models00 =>
        let md := mkMetadata cfg true_vocab_size cst
        match get_model_schema cfg.model_type cfg.transformer_impl
            cfg.num_experts cfg.expert_model_parallel_size with
        | .error f => ([Msg.meta md], Outcome.raised f)
        | .ok schema =>
          match embMessage cfg schema models00 with
          | .error f => ([Msg.meta md], Outcome.raised f)
          | .ok emb =>
            let st0 : LoopSt :=
              { allModels := [mx0], cst := cst, total := 0, cur := models00, msgs := [] }
            match vpLoop cfg prov schema (List.range (vp_size cfg)) st0 with
            | (st1, some f) => ([Msg.meta md, emb] ++ st1.msgs, Outcome.raised f)
            | (st1, none) =>
              match finalNormMessage cfg schema st1.cur with
              | .error f => ([Msg.meta md, emb] ++ st1.msgs, Outcome.raised f)
              | .ok fn =>
                match outputSeg cfg schema st1.cur with
                | .error f =>
                    ([Msg.meta md, emb] ++ st1.msgs ++ [fn], Outcome.raised f)
                | .ok outs =>
                  match bertSeg cfg schema st1.cur with
                  | .error f =>
                      ([Msg.meta md, emb] ++ st1.msgs ++ [fn] ++ outs,
                       Outcome.raised f)
                  | .ok berts =>
                    let logs := if cfg.test_logits then [logitsMessage prov] else []
                    ([Msg.meta md, emb] ++ st1.msgs ++ [fn] ++ outs ++ berts
                       ++ logs ++ [Msg.done],
                     Outcome.completed)

/-- loader_core.py lines 466-471: `load_checkpoint` — catch any exception,
push the "exit" sentinel, re-raise. -/
def load_checkpoint (cfg : Config) (prov : Provider) : List Msg × Outcome :=
  let r := loadCheckpointInner cfg prov
  match r.2 with
  | Outcome.raised f => (r.1 ++ [Msg.exitS], Outcome.raised f)
  | o => (r.1, o)

/-- Placeholder shard for out-of-range indexing in statements. -/
def defaultShard : Shard := ⟨0, 0, fun _ => none⟩

instance : Inhabited Shard := ⟨defaultShard⟩

/-- The shard the provider materializes at (pipeline `pp`, tensor-parallel
`tp`, virtual rank `v`). -/
def shardAt (prov : Provider) (pp tp v : Nat) : Shard :=
  ((prov.load pp tp).models.get? v).getD defaultShard

/-- The `models[vp_rank][tp_rank]` matrix `get_models` produces for stage
`pp` when the provider is well formed. -/
def stageMatrix (prov : Provider) (vpS tpS pp : Nat) : List (List Shard) :=
  (List.range vpS).map (fun v => (List.range tpS).map (fun t => shardAt prov pp t v))

/-- The schema a dense (non-MoE) configuration selects. -/
def denseSchemaOf (cfg : Config) : ModelSchema :=
  match cfg.transformer_impl with
  | .localEngine => coreSchema cfg.model_type coreLocalLayerSchema
  | .transformerEngine => coreSchema cfg.model_type coreTELayerSchema

/-- Layers hosted by each (pipeline, virtual) stage when the partition is
even. -/
def layersPer (cfg : Config) : Nat :=
  cfg.num_layers / (cfg.pipeline_parallel_size * vp_size cfg)

/-- The tensor a dense-schema layer role resolves to on shard `s`
(`none` both for an absent tensor and, vacuously, for an unmapped key). -/
def roleVal (cfg : Config) (s : Shard) (i : Nat) (key : String) : Option Tensor :=
  (schemaGetLayer (denseSchemaOf cfg) s i key).join

/-- The name tag of a named-tensor message. -/
def nameOf (m : Msg) : Option String :=
  match m with
  | .named n _ => some n
  | _ => none

/-- `f"transformer layer {k}"`. -/
def layerName (k : Nat) : String := "transformer layer " ++ toString k

/-- The global-index name sequence the spec prescribes:
virtual-pipeline-major, pipeline-minor, local-layer-innermost, with global
index `vp_rank * pipeline_parallel_size * layers_per_stage
+ pp_rank * layers_per_stage + local_layer_index`. -/
def expectedLayerNames (cfg : Config) : List String :=
  (List.range (vp_size cfg)).flatMap (fun v =>
    (List.range cfg.pipeline_parallel_size).flatMap (fun p =>
      (List.range (layersPer cfg)).map (fun i =>
        layerName (v * cfg.pipeline_parallel_size * layersPer cfg
          + p * layersPer cfg + i))))

/-- Shard identity tags of a cached stage list (for retention claims). -/
def sidsOf (ams : List (List (List Shard))) : List (List (List Nat)) :=
  ams.map (fun mx => mx.map (fun row => row.map Shard.sid))

/-- Boolean field-presence test on a message's field list. -/
def hasFieldB (fs : List (String × TVal)) (k : String) : Bool :=
  fs.any (fun p => p.1 == k)

/-- Claim-side construction: split a tensor into `n` equal row shards. -/
def splitRowsGo (k : Nat) : Nat → Tensor → List Tensor
  | 0, _ => []
  | n + 1, t => t.take k :: splitRowsGo k n (t.drop k)

/-- Claim-side construction: the `n` equal row shards of `t`. -/
def specSplitRows (t : Tensor) (n : Nat) : List Tensor :=
  splitRowsGo (t.length / n) n t

/-- Checkpoint-layout construction: shard `i` of a gated first linear is
the concatenation of the `i`-th gate shard and the `i`-th value shard. -/
def specShards (gate value : Tensor) (n : Nat) : List Tensor :=
  List.zipWith (fun a b => a ++ b) (specSplitRows gate n) (specSplitRows value n)

/-- Well-formedness of a run configuration and provider, consumed-sample
agreement excluded: dense architecture, positive sizes, even layer
partition, correctly sized virtual-model lists, uniform per-stage layer
counts, and presence of every tensor the merge engine concatenates. -/
structure WFnc (cfg : Config) (prov : Provider) : Prop where
  dense : cfg.num_experts = none ∨ cfg.num_experts = some 0
  tp_pos : 0 < cfg.tensor_parallel_size
  pp_pos : 0 < cfg.pipeline_parallel_size
  vp_pos : 0 < vp_size cfg
  layers_split : cfg.num_layers
    = cfg.pipeline_parallel_size * vp_size cfg * layersPer cfg
  models_len : ∀ pp tp, pp < cfg.pipeline_parallel_size →
    tp < cfg.tensor_parallel_size →
    ((prov.load pp tp).models).length = vp_size cfg
  shard_layers : ∀ pp tp v, pp < cfg.pipeline_parallel_size →
    tp < cfg.tensor_parallel_size → v < vp_size cfg →
    (shardAt prov pp tp v).numLayers = layersPer cfg
  word_present : ∀ tp, tp < cfg.tensor_parallel_size →
    ((shardAt prov 0 tp 0).fetch "embedding.word_embeddings.weight").isSome
  pos_absent : cfg.position_embedding_type ≠ PosEmbK.learned_absolute →
    (shardAt prov 0 0 0).fetch "embedding.position_embeddings.weight" = none
  qkv_present : ∀ pp tp v i, pp < cfg.pipeline_parallel_size →
    tp < cfg.tensor_parallel_size → v < vp_size cfg → i < layersPer cfg →
    (roleVal cfg (shardAt prov pp tp v) i "self_attn_qkv_weight").isSome
  proj_present : ∀ pp tp v i, pp < cfg.pipeline_parallel_size →
    tp < cfg.tensor_parallel_size → v < vp_size cfg → i < layersPer cfg →
    (roleVal cfg (shardAt prov pp tp v) i "self_attn_proj_weight").isSome
  fc1_present : ∀ pp tp v i, pp < cfg.pipeline_parallel_size →
    tp < cfg.tensor_parallel_size → v < vp_size cfg → i < layersPer cfg →
    (roleVal cfg (shardAt prov pp tp v) i "mlp_fc1_weight").isSome
  fc2_present : ∀ pp tp v i, pp < cfg.pipeline_parallel_size →
    tp < cfg.tensor_parallel_size → v < vp_size cfg → i < layersPer cfg →
    (roleVal cfg (shardAt prov pp tp v) i "mlp_fc2_weight").isSome
  qkvb_present : cfg.add_qkv_bias = true →
    ∀ pp tp v i, pp < cfg.pipeline_parallel_size →
    tp < cfg.tensor_parallel_size → v < vp_size cfg → i < layersPer cfg →
    (roleVal cfg (shardAt prov pp tp v) i "self_attn_qkv_bias").isSome
  fc1b_present : cfg.add_bias_linear = true →
    ∀ pp tp v i, pp < cfg.pipeline_parallel_size →
    tp < cfg.tensor_parallel_size → v < vp_size cfg → i < layersPer cfg →
    (roleVal cfg (shardAt prov pp tp v) i "mlp_fc1_bias").isSome
  out_present : cfg.untie_embeddings_and_output_weights = true →
    ∀ tp, tp < cfg.tensor_parallel_size →
    ((shardAt prov (cfg.pipeline_parallel_size - 1) tp (vp_size cfg - 1)).fetch
      "output_layer.weight").isSome
  logits_ok : cfg.test_logits = true →
    cfg.tensor_parallel_size = 1 ∧ vp_size cfg = 1 ∧ cfg.model_type = ModelTypeK.GPT

/-- Full well-formedness: additionally, every loaded shard reports the same
consumed-sample counters. -/
structure WF (cfg : Config) (prov : Provider) extends WFnc cfg prov : Prop where
  consumed_train_eq : ∀ pp tp, pp < cfg.pipeline_parallel_size →
    tp < cfg.tensor_parallel_size →
    (prov.load pp tp).consumed_train_samples
      = (prov.load 0 0).consumed_train_samples
  consumed_valid_eq : ∀ pp tp, pp < cfg.pipeline_parallel_size →
    tp < cfg.tensor_parallel_size →
    (prov.load pp tp).consumed_valid_samples
      = (prov.load 0 0).consumed_valid_samples

/-- Concrete dense-decoder checkpoint (the spec's scenario: GPT, two
tensor-parallel shards, one pipeline stage, two layers, no gating, no
bias): storage-path table for shard `tp`. -/
def denseFetch (tp : Nat) : String → Option Tensor := fun s =>
  if s = "embedding.word_embeddings.weight" then some [[Int.ofNat tp]]
  else if s = "embedding.position_embeddings.weight" then some [[9]]
  else if s = "decoder.layers.0.input_layernorm.weight" then some [[1]]
  else if s = "decoder.layers.1.input_layernorm.weight" then some [[1]]
  else if s = "decoder.layers.0.pre_mlp_layernorm.weight" then some [[2]]
  else if s = "decoder.layers.1.pre_mlp_layernorm.weight" then some [[2]]
  else if s = "decoder.layers.0.self_attention.linear_qkv.weight" then some [[Int.ofNat (10 + tp)]]
  else if s = "decoder.layers.1.self_attention.linear_qkv.weight" then some [[Int.ofNat (20 + tp)]]
  else if s = "decoder.layers.0.self_attention.linear_proj.weight" then some [[3]]
  else if s = "decoder.layers.1.self_attention.linear_proj.weight" then some [[3]]
  else if s = "decoder.layers.0.mlp.linear_fc1.weight" then some [[4]]
  else if s = "decoder.layers.1.mlp.linear_fc1.weight" then some [[4]]
  else if s = "decoder.layers.0.mlp.linear_fc2.weight" then some [[5]]
  else if s = "decoder.layers.1.mlp.linear_fc2.weight" then some [[5]]
  else if s = "decoder.final_layernorm.weight" then some [[6]]
  else none

def denseProv : Provider :=
  { load := fun _pp tp =>
      { models := [Shard.mk tp 2 (denseFetch tp)],
        consumed_train_samples := 100,
        consumed_valid_samples := 7 },
    logits_tokens := [[0]],
    logits_position_ids := [[0]],
    logits_attention_mask := [[0]],
    logits_output := [[0]] }

def denseCfg : Config :=
  { model_type := .GPT,
    transformer_impl := .transformerEngine,
    num_experts := none,
    expert_model_parallel_size := 1,
    tensor_parallel_size := 2,
    pipeline_parallel_size := 1,
    virtual_pipeline_size := none,
    num_layers := 2,
    position_embedding_type := .learned_absolute,
    norm_has_bias := false,
    add_bias_linear := false,
    add_qkv_bias := false,
    swiglu := false,
    untie_embeddings_and_output_weights := false,
    bert_binary_head := false,
    test_logits := false,
    true_vocab_size := none,
    vocab_file_size := none }

/-- Both `--true-vocab-size` and `--vocab-file` supplied, disagreeing. -/
def vocabClashCfg : Config :=
  { denseCfg with true_vocab_size := some 100, vocab_file_size := some 200 }

/-- The MoE scenario of the spec: `num_experts = 4`,
`expert_parallel_size = 2`, one tensor-parallel rank. -/
def moeCfg : Config :=
  { denseCfg with num_experts := some 4, expert_model_parallel_size := 2,
                  tensor_parallel_size := 1 }

/-- `test_logits` requested with a tensor-parallel size of 2. -/
def logitsBadCfg : Config := { denseCfg with test_logits := true }

/-- Concrete encoder checkpoint with biased normalization: storage paths of
the single shard. -/
def bertFetch : String → Option Tensor := fun s =>
  if s = "embedding.word_embeddings.weight" then some [[1]]
  else if s = "embedding.position_embeddings.weight" then some [[9]]
  else if s = "encoder.layers.0.input_layernorm.weight" then some [[1]]
  else if s = "encoder.layers.0.input_layernorm.bias" then some [[1]]
  else if s = "encoder.layers.0.pre_mlp_layernorm.weight" then some [[2]]
  else if s = "encoder.layers.0.pre_mlp_layernorm.bias" then some [[2]]
  else if s = "encoder.layers.0.self_attention.linear_qkv.weight" then some [[10]]
  else if s = "encoder.layers.0.self_attention.linear_proj.weight" then some [[3]]
  else if s = "encoder.layers.0.mlp.linear_fc1.weight" then some [[4]]
  else if s = "encoder.layers.0.mlp.linear_fc2.weight" then some [[5]]
  else if s = "encoder.final_layernorm.weight" then some [[6]]
  else if s = "encoder.final_layernorm.bias" then some [[6]]
  else if s = "pooler.dense.weight" then some [[11]]
  else if s = "pooler.dense.bias" then some [[12]]
  else if s = "lm_head.dense.weight" then some [[13]]
  else if s = "lm_head.dense.bias" then some [[14]]
  else if s = "lm_head.layer_norm.weight" then some [[15]]
  else if s = "lm_head.layer_norm.bias" then some [[16]]
  else if s = "binary_head.weight" then some [[17]]
  else if s = "binary_head.bias" then some [[18]]
  else none

def bertProv : Provider :=
  { load := fun _pp _tp =>
      { models := [Shard.mk 0 1 bertFetch],
        consumed_train_samples := 0,
        consumed_valid_samples := 0 },
    logits_tokens := [[0]],
    logits_position_ids := [[0]],
    logits_attention_mask := [[0]],
    logits_output := [[0]] }

def bertCfg : Config :=
  { denseCfg with model_type := .BERT, tensor_parallel_size := 1,
                  num_layers := 1, norm_has_bias := true,
                  bert_binary_head := true }

/-- Two pipeline stages, one tensor-parallel rank, one layer each: storage
paths of the stage-`pp` shard. -/
def pp2Fetch (pp : Nat) : String → Option Tensor := fun s =>
  if s = "embedding.word_embeddings.weight" then some [[0]]
  else if s = "embedding.position_embeddings.weight" then some [[9]]
  else if s = "decoder.layers.0.input_layernorm.weight" then some [[Int.ofNat (30 + pp)]]
  else if s = "decoder.layers.0.pre_mlp_layernorm.weight" then some [[2]]
  else if s = "decoder.layers.0.self_attention.linear_qkv.weight" then some [[Int.ofNat (10 + pp)]]
  else if s = "decoder.layers.0.self_attention.linear_proj.weight" then some [[3]]
  else if s = "decoder.layers.0.mlp.linear_fc1.weight" then some [[4]]
  else if s = "decoder.layers.0.mlp.linear_fc2.weight" then some [[5]]
  else if s = "decoder.final_layernorm.weight" then some [[6]]
  else none

def pp2Shard (pp : Nat) : Shard := Shard.mk pp 1 (pp2Fetch pp)

def pp2Prov : Provider :=
  { load := fun pp _tp =>
      { models := [pp2Shard pp],
        consumed_train_samples := 100,
        consumed_valid_samples := 5 },
    logits_tokens := [[0]],
    logits_position_ids := [[0]],
    logits_attention_mask := [[0]],
    logits_output := [[0]] }

def pp2Cfg : Config :=
  { denseCfg with tensor_parallel_size := 1, pipeline_parallel_size := 2 }

def pp2Schema : ModelSchema := denseSchemaOf pp2Cfg

/-- The stage matrix the initial `get_models` call produces for `pp2Prov`. -/
def pp2Mx0 : List (List Shard) := [[pp2Shard 0]]

/-- The walker state right before the emission loop of the `pp2` run. -/
def pp2St0 : LoopSt :=
  { allModels := [pp2Mx0], cst := ⟨some 100, some 5⟩, total := 0,
    cur := [pp2Shard 0], msgs := [] }

/-- Two pipeline stages, two tensor-parallel ranks; stage 1's rank 1
reports a diverging consumed-train counter. -/
def mmProv : Provider :=
  { load := fun pp tp =>
      { models := [Shard.mk (10 * pp + tp) 1 (pp2Fetch pp)],
        consumed_train_samples := if pp = 1 ∧ tp = 1 then 999 else 100,
        consumed_valid_samples := 5 },
    logits_tokens := [[0]],
    logits_position_ids := [[0]],
    logits_attention_mask := [[0]],
    logits_output := [[0]] }

def mmCfg : Config :=
  { denseCfg with tensor_parallel_size := 2, pipeline_parallel_size := 2 }

/-- Interleaved schedule: two pipeline stages, two virtual passes, one
tensor-parallel rank, one layer per (stage, pass): storage paths of the
virtual sub-model `v` hosted by stage `pp`. -/
def vpFetch (pp v : Nat) : String → Option Tensor := fun s =>
  if s = "embedding.word_embeddings.weight" then some [[0]]
  else if s = "embedding.position_embeddings.weight" then some [[9]]
  else if s = "decoder.layers.0.input_layernorm.weight" then some [[1]]
  else if s = "decoder.layers.0.pre_mlp_layernorm.weight" then some [[2]]
  else if s = "decoder.layers.0.self_attention.linear_qkv.weight" then some [[Int.ofNat (10 + 2 * v + pp)]]
  else if s = "decoder.layers.0.self_attention.linear_proj.weight" then some [[3]]
  else if s = "decoder.layers.0.mlp.linear_fc1.weight" then some [[4]]
  else if s = "decoder.layers.0.mlp.linear_fc2.weight" then some [[5]]
  else if s = "decoder.final_layernorm.weight" then some [[6]]
  else none

def vpProv : Provider :=
  { load := fun pp _tp =>
      { models := [Shard.mk (10 * pp) 1 (vpFetch pp 0), Shard.mk (10 * pp + 1) 1 (vpFetch pp 1)],
        consumed_train_samples := 100,
        consumed_valid_samples := 5 },
    logits_tokens := [[0]],
    logits_position_ids := [[0]],
    logits_attention_mask := [[0]],
    logits_output := [[0]] }

def vpCfg : Config :=
  { denseCfg with tensor_parallel_size := 1, pipeline_parallel_size := 2,
                  virtual_pipeline_size := some 2, num_layers := 4 }

/-- Shards with linear biases, for the column-parallel-bias claim: shard
`tp` of a one-layer, biased, two-rank group. -/
def biasFetch (tp : Nat) : String → Option Tensor := fun s =>
  if s = "decoder.layers.0.input_layernorm.weight" then some [[1]]
  else if s = "decoder.layers.0.pre_mlp_layernorm.weight" then some [[2]]
  else if s = "decoder.layers.0.self_attention.linear_qkv.weight" then some [[Int.ofNat (10 + tp)]]
  else if s = "decoder.layers.0.self_attention.linear_proj.weight" then some [[3]]
  else if s = "decoder.layers.0.self_attention.linear_proj.bias" then some [[Int.ofNat (40 + tp)]]
  else if s = "decoder.layers.0.mlp.linear_fc1.weight" then some [[4]]
  else if s = "decoder.layers.0.mlp.linear_fc1.bias" then some [[Int.ofNat (50 + tp)]]
  else if s = "decoder.layers.0.mlp.linear_fc2.weight" then some [[5]]
  else if s = "decoder.layers.0.mlp.linear_fc2.bias" then some [[Int.ofNat (60 + tp)]]
  else none

def biasCfg : Config :=
  { denseCfg with add_bias_linear := true, num_layers := 1 }

def biasModels : List Shard := [Shard.mk 0 1 (biasFetch 0), Shard.mk 1 1 (biasFetch 1)]

/-- Kernel-reducible string prefix test (on the underlying char lists). -/
def strHasPfx (p s : String) : Bool := decide (s.data.take p.data.length = p.data)

/-- Is this queue message a transformer-layer message? -/
def isLayerMsg (m : Msg) : Bool :=
  match m with
  | .named s _ => strHasPfx "transformer layer " s
  | _ => false

theorem computeTrueVocab_isOk (tvs vfs : Option Nat) :
    ∃ v, computeTrueVocab tvs vfs = Except.ok v := by
  unfold computeTrueVocab
  cases tvs with
  | some a => simp
  | none =>
    cases vfs with
    | some n => simp
    | none => simp

/-- C3: the claim says a disagreement between an explicitly supplied true
vocab size and the vocab file's size is fatal ("exit" pushed, run
terminated).  The code never reaches that check: when `--true-vocab-size`
is supplied the `elif --vocab-file` arm is skipped, so the mismatch abort
(loader_core.py lines 205-208) is unreachable, the explicit size wins, and
the run completes normally without pushing "exit". -/
theorem c3_vocab_clash_not_fatal :
    computeTrueVocab (some 100) (some 200) = Except.ok (some 100)
    ∧ (∀ tvs vfs : Option Nat, ∃ v, computeTrueVocab tvs vfs = Except.ok v)
    ∧ (load_checkpoint vocabClashCfg denseProv).2 = Outcome.completed
    ∧ Msg.exitS ∉ (load_checkpoint vocabClashCfg denseProv).1
    ∧ (load_checkpoint vocabClashCfg denseProv).1.head?
        = some (Msg.meta (mkMetadata vocabClashCfg (some 100) ⟨some 100, some 7⟩)) := by
  refine ⟨rfl, computeTrueVocab_isOk, ?_, ?_, ?_⟩ <;> decide

/-- C10: with `test_logits` requested the run asserts, before pushing any
message, that `tp_size == vp_size == vp_size == 1` (equivalent to
tensor-parallel size 1 and virtual-pipeline size 1 — the pipeline size is
not mentioned by the chain) and that the model type is GPT. -/
theorem c10_logits_guard :
    (∀ cfg : Config, logitsGeometryOk cfg = true ↔
      (cfg.tensor_parallel_size = 1 ∧ vp_size cfg = 1))
    ∧ (∀ (cfg : Config) (pp : Nat),
        logitsGeometryOk { cfg with pipeline_parallel_size := pp }
          = logitsGeometryOk cfg)
    ∧ (∀ (cfg : Config) (prov : Provider), cfg.test_logits = true →
        logitsGeometryOk cfg = false →
        loadCheckpointInner cfg prov
          = ([], Outcome.raised (Fault.assertFail "tp_size == vp_size == vp_size == 1")))
    ∧ (∀ (cfg : Config) (prov : Provider), cfg.test_logits = true →
        logitsGeometryOk cfg = true →
        (cfg.model_type == ModelTypeK.GPT) = false →
        loadCheckpointInner cfg prov
          = ([], Outcome.raised (Fault.assertFail "model_type == GPT"))) := by
  refine ⟨?_, ?_, ?_, ?_⟩
  · intro cfg
    simp only [logitsGeometryOk, Bool.and_eq_true, beq_iff_eq]
    constructor
    · rintro ⟨⟨h1, _⟩, h2⟩
      exact ⟨h1.trans h2, h2⟩
    · rintro ⟨h1, h2⟩
      exact ⟨⟨h1.trans h2.symm, trivial⟩, h2⟩
  · intro cfg pp
    rfl
  · intro cfg prov h1 h2
    obtain ⟨v, hv⟩ := computeTrueVocab_isOk cfg.true_vocab_size cfg.vocab_file_size
    simp [loadCheckpointInner, hv, h1, h2]
  · intro cfg prov h1 h2 h3
    obtain ⟨v, hv⟩ := computeTrueVocab_isOk cfg.true_vocab_size cfg.vocab_file_size
    simp [loadCheckpointInner, hv, h1, h2, h3]

/-- Witness for C10: a logits-check run with tensor-parallel size 2 fails
the geometry assertion with no message pushed. -/
theorem c10_witness :
    loadCheckpointInner logitsBadCfg denseProv
      = ([], Outcome.raised (Fault.assertFail "tp_size == vp_size == vp_size == 1")) :=
  c10_logits_guard.2.2.1 logitsBadCfg denseProv (by decide) (by decide)

theorem mergeSwigluW_cons (t : Tensor) (ts : List Tensor) :
    mergeSwigluW (t :: ts) = (chunk2 t).1 ++ mergeSwigluW ts := by
  simp [mergeSwigluW, catDim0]

theorem mergeSwigluV_cons (t : Tensor) (ts : List Tensor) :
    mergeSwigluV (t :: ts) = (chunk2 t).2 ++ mergeSwigluV ts := by
  simp [mergeSwigluV, catDim0]

theorem swiglu_roundtrip_go (n : Nat) :
    ∀ (k : Nat) (g v : Tensor), g.length = n * k → v.length = n * k →
    mergeSwigluW (List.zipWith (fun a b => a ++ b) (splitRowsGo k n g) (splitRowsGo k n v)) = g
    ∧ mergeSwigluV (List.zipWith (fun a b => a ++ b) (splitRowsGo k n g) (splitRowsGo k n v)) = v := by
  induction n with
  | zero =>
    intro k g v hg hv
    have hg0 : g = [] := List.eq_nil_of_length_eq_zero (by omega)
    have hv0 : v = [] := List.eq_nil_of_length_eq_zero (by omega)
    subst hg0; subst hv0
    exact ⟨rfl, rfl⟩
  | succ n ih =>
    intro k g v hg hv
    rw [Nat.succ_mul] at hg hv
    have hgt : (g.take k).length = k := by
      rw [List.length_take]; omega
    have hvt : (v.take k).length = k := by
      rw [List.length_take]; omega
    have hgd : (g.drop k).length = n * k := by
      rw [List.length_drop]; omega
    have hvd : (v.drop k).length = n * k := by
      rw [List.length_drop]; omega
    have ihd := ih k (g.drop k) (v.drop k) hgd hvd
    have hhalf : ((g.take k ++ v.take k).length + 1) / 2 = k := by
      rw [List.length_append, hgt, hvt]; omega
    have hchunk1 : (chunk2 (g.take k ++ v.take k)).1 = g.take k := by
      show (g.take k ++ v.take k).take _ = g.take k
      rw [hhalf]
      exact List.take_left' hgt
    have hchunk2 : (chunk2 (g.take k ++ v.take k)).2 = v.take k := by
      show (g.take k ++ v.take k).drop _ = v.take k
      rw [hhalf]
      exact List.drop_left' hgt
    constructor
    · rw [splitRowsGo, splitRowsGo, List.zipWith_cons_cons, mergeSwigluW_cons,
        hchunk1, ihd.1, List.take_append_drop]
    · rw [splitRowsGo, splitRowsGo, List.zipWith_cons_cons, mergeSwigluV_cons,
        hchunk2, ihd.2, List.take_append_drop]

/-- C5 counterexample: splitting the axis-0 concatenation `gate ++ value`
into `tensor_parallel_size` equal row shards and merging does not
reproduce the gate tensor (here `tp = 2`, gate `[[0],[1]]`, value
`[[2],[3]]`: the merged "weight W" is `[[0],[2]]`). -/
theorem c5_counterexample :
    ¬(mergeSwigluW (specSplitRows ([[0], [1]] ++ [[2], [3]]) 2) = ([[0], [1]] : Tensor)
      ∧ mergeSwigluV (specSplitRows ([[0], [1]] ++ [[2], [3]]) 2) = ([[2], [3]] : Tensor)) := by
  decide

/-- C5 amended: when each tensor-parallel shard is the concatenation of its
gate shard and its value shard (the actual checkpoint layout), the merge
step (chunk each shard in two along axis 0, concatenate all first halves
into "...W" and all second halves into "...V") reproduces the gate and
value tensors exactly; `mergeSwigluW`/`mergeSwigluV` are the merge step
for both the weight and the bias paths of the loader. -/
theorem c5_amended (gate value : Tensor) (n k : Nat) (hn : 0 < n)
    (hg : gate.length = n * k) (hv : value.length = n * k) :
    mergeSwigluW (specShards gate value n) = gate
    ∧ mergeSwigluV (specShards gate value n) = value := by
  have hk : gate.length / n = k := by
    rw [hg]; exact Nat.mul_div_cancel_left k hn
  have hk2 : value.length / n = k := by
    rw [hv]; exact Nat.mul_div_cancel_left k hn
  have := swiglu_roundtrip_go n k gate value hg hv
  simpa [specShards, specSplitRows, hk, hk2] using this

/-- Witness for the amended C5 statement at gate `[[0],[1]]`, value
`[[2],[3]]`, two tensor-parallel shards. -/
theorem c5_witness :
    mergeSwigluW (specShards [[0], [1]] [[2], [3]] 2) = ([[0], [1]] : Tensor)
    ∧ mergeSwigluV (specShards [[0], [1]] [[2], [3]] 2) = ([[2], [3]] : Tensor) :=
  c5_amended [[0], [1]] [[2], [3]] 2 1 (by decide) (by decide) (by decide)

/-- C6: the MoE layer schema instantiates exactly two local-expert weight
pairs (`mlp_fc1_weight.0/.1`, `mlp_fc2_weight.0/.1`, as the claim and spec
expect) and defines no unindexed `mlp_fc1_weight` role — but the emitter
reads exactly that unindexed key, so an MoE run (num_experts = 4,
expert_parallel_size = 2) aborts with a key error before the first
transformer-layer message, pushes "exit", and emits no expert weights at
all. -/
theorem c6_moe_layer_messages_never_emitted :
    ((coreMoETELayerSchema 4 2).map Prod.fst).filter
        (fun k => strHasPfx "mlp_fc1_weight." k) = ["mlp_fc1_weight.0", "mlp_fc1_weight.1"]
    ∧ ((coreMoETELayerSchema 4 2).map Prod.fst).filter
        (fun k => strHasPfx "mlp_fc2_weight." k) = ["mlp_fc2_weight.0", "mlp_fc2_weight.1"]
    ∧ lookupStr "mlp_fc1_weight" (coreMoETELayerSchema 4 2) = none
    ∧ (load_checkpoint moeCfg denseProv).2
        = Outcome.raised (Fault.keyError "mlp_fc1_weight")
    ∧ (load_checkpoint moeCfg denseProv).1.map nameOf
        = [none, some "embeddings", none]
    ∧ (load_checkpoint moeCfg denseProv).1.getLast? = some Msg.exitS := by
  refine ⟨?_, ?_, ?_, ?_, ?_, ?_⟩ <;> decide

/-- C9: on a faultless BERT run with biased normalization, the "lm head"
message binds every field to a plain tensor except "norm bias", which the
trailing comma of loader_core.py line 413 turns into a one-element tuple
rather than the layer-norm bias tensor itself. -/
theorem c9_lm_head_norm_bias_is_tuple :
    (load_checkpoint bertCfg bertProv).2 = Outcome.completed
    ∧ ((load_checkpoint bertCfg bertProv).1.filterMap (fun m =>
        match m with
        | Msg.named "lm head" fs => some fs
        | _ => none))
      = [[("dense weight", TVal.val (some [[13]])),
          ("dense bias", TVal.val (some [[14]])),
          ("norm weight", TVal.val (some [[15]])),
          ("norm bias", TVal.tup (some [[16]]))]]
    ∧ bertFetch "lm_head.layer_norm.bias" = some [[16]]
    ∧ TVal.tup (some [[16]]) ≠ TVal.val (some [[16]]) := by
  refine ⟨?_, ?_, ?_, ?_⟩ <;> decide

/-- C7 counterexample: in a faultless two-stage run, after stage 1 has been
materialized and all messages emitted, the walker's `all_models` cache
still holds stage 0's shard set alongside stage 1's — no stage is ever
released. -/
theorem c7_counterexample :
    get_models pp2Prov (vp_size pp2Cfg) 0 pp2Cfg.tensor_parallel_size ⟨none, none⟩
        = Except.ok (pp2Mx0, (⟨some 100, some 5⟩ : CState))
    ∧ (vpLoop pp2Cfg pp2Prov pp2Schema (List.range (vp_size pp2Cfg)) pp2St0).2 = none
    ∧ sidsOf (vpLoop pp2Cfg pp2Prov pp2Schema (List.range (vp_size pp2Cfg)) pp2St0).1.allModels
        = [[[0]], [[1]]]
    ∧ (load_checkpoint pp2Cfg pp2Prov).2 = Outcome.completed := by
  refine ⟨rfl, ?_, ?_, ?_⟩ <;> decide

/-- C1 counterexample: the claim quantifies over every architecture
variant, but under the mixture-of-experts variant the run (declared layer
count 2) aborts before emitting a single transformer-layer message. -/
theorem c1_counterexample :
    moeCfg.num_layers = 2
    ∧ ((load_checkpoint moeCfg denseProv).1.filterMap nameOf).filter
        (fun n => strHasPfx "transformer layer " n) = []
    ∧ (load_checkpoint moeCfg denseProv).2 ≠ Outcome.completed := by
  refine ⟨?_, ?_, ?_⟩ <;> decide

theorem denseLayer_eq (cfg : Config) :
    (denseSchemaOf cfg).layer = coreTELayerSchema := by
  cases h : cfg.transformer_impl <;> simp only [denseSchemaOf, h] <;> rfl

theorem getKey_dense (cfg : Config) (s : Shard) (i : Nat) (key : String)
    (hk : (lookupStr key coreTELayerSchema).isSome = true) :
    getKey (schemaGetLayer (denseSchemaOf cfg) s i) key
      = Except.ok (roleVal cfg s i key) := by
  rcases hl : lookupStr key coreTELayerSchema with _ | p
  · rw [hl] at hk; simp at hk
  · simp [getKey, roleVal, schemaGetLayer, denseLayer_eq, hl]

theorem schemaGetLayer_dense_val (cfg : Config) (s : Shard) (i : Nat)
    (key p : String) (hl : lookupStr key coreTELayerSchema = some p) :
    schemaGetLayer (denseSchemaOf cfg) s i key
      = some (s.fetch ((denseSchemaOf cfg).layerPfx ++ "." ++ toString i ++ "." ++ p)) := by
  simp [schemaGetLayer, denseLayer_eq, hl]

theorem mapM_ok {α β : Type} (l : List α) (f : α → Except Fault β) (g : α → β)
    (h : ∀ a ∈ l, f a = Except.ok (g a)) :
    l.mapM f = Except.ok (l.map g) := by
  induction l with
  | nil => rfl
  | cons a l ih =>
    rw [List.mapM_cons, h a (List.mem_cons_self a l), ih (fun b hb => h b (List.mem_cons_of_mem a hb))]
    rfl

theorem mapM_id_some (ts : List (Option Tensor)) (h : ∀ t ∈ ts, t.isSome = true) :
    ts.mapM (fun t => t) = some (ts.map (fun t => t.getD [])) := by
  induction ts with
  | nil => rfl
  | cons a l ih =>
    rcases ha : a with _ | v
    · have := h a (List.mem_cons_self a l); rw [ha] at this; simp at this
    · rw [List.mapM_cons, ih (fun b hb => h b (List.mem_cons_of_mem a hb))]
      simp [ha]

theorem catOpt0_ok (ts : List (Option Tensor)) (h : ∀ t ∈ ts, t.isSome = true) :
    catOpt0 ts = Except.ok (catDim0 (ts.map (fun t => t.getD []))) := by
  rw [catOpt0, mapM_id_some ts h]

theorem catOpt1_ok (ts : List (Option Tensor)) (h : ∀ t ∈ ts, t.isSome = true) :
    catOpt1 ts = Except.ok (catDim1 (ts.map (fun t => t.getD []))) := by
  rw [catOpt1, mapM_id_some ts h]

theorem seqTensors_ok (ts : List (Option Tensor)) (h : ∀ t ∈ ts, t.isSome = true) :
    seqTensors ts = Except.ok (ts.map (fun t => t.getD [])) := by
  rw [seqTensors, mapM_id_some ts h]

theorem lookup_append_some {k : String} {v : TVal}
    {l1 l2 : List (String × TVal)} (h : List.lookup k l1 = some v) :
    List.lookup k (l1 ++ l2) = some v := by
  induction l1 with
  | nil => simp [List.lookup] at h
  | cons a l ih =>
    rw [List.cons_append, List.lookup] at *
    rcases hb : (k == a.1) with _ | _
    · rw [hb] at h; exact ih h
    · rw [hb] at h; exact h

theorem lookup_append_none {k : String}
    {l1 l2 : List (String × TVal)} (h : List.lookup k l1 = none) :
    List.lookup k (l1 ++ l2) = List.lookup k l2 := by
  induction l1 with
  | nil => simp
  | cons a l ih =>
    rw [List.cons_append, List.lookup] at *
    rcases hb : (k == a.1) with _ | _
    · rw [hb] at h; exact ih h
    · rw [hb] at h; exact absurd h (by simp)

theorem normBiasFields_ok (cfg : Config) (s : Shard) (i : Nat) :
    normBiasFields cfg (schemaGetLayer (denseSchemaOf cfg) s i)
      = Except.ok (if cfg.norm_has_bias then
          [("input norm bias", TVal.val (roleVal cfg s i "self_attn_norm_bias")),
           ("post norm bias", TVal.val (roleVal cfg s i "mlp_norm_bias"))]
        else []) := by
  rcases h : cfg.norm_has_bias with _ | _
  · simp [normBiasFields, h]
  · simp [normBiasFields, h,
      getKey_dense cfg s i "self_attn_norm_bias" rfl,
      getKey_dense cfg s i "mlp_norm_bias" rfl,
      Except.bind, Except.map]

theorem linBiasFields_ok (cfg : Config) (s : Shard) (i : Nat) :
    linBiasFields cfg (schemaGetLayer (denseSchemaOf cfg) s i)
      = Except.ok (if cfg.add_bias_linear then
          [("dense bias", TVal.val (roleVal cfg s i "self_attn_proj_bias")),
           ("mlp l1 bias", TVal.val (roleVal cfg s i "mlp_fc2_bias"))]
        else []) := by
  rcases h : cfg.add_bias_linear with _ | _
  · simp [linBiasFields, h]
  · simp [linBiasFields, h,
      getKey_dense cfg s i "self_attn_proj_bias" rfl,
      getKey_dense cfg s i "mlp_fc2_bias" rfl,
      Except.bind, Except.map]

theorem qNormFields_ok (cfg : Config) (s : Shard) (i : Nat) :
    ∃ fs, qNormFields cfg (schemaGetLayer (denseSchemaOf cfg) s i) = Except.ok fs := by
  unfold qNormFields
  rw [schemaGetLayer_dense_val cfg s i "self_attn_q_layernorm_weight"
    "self_attention.q_layernorm.weight" rfl]
  rcases hw : s.fetch ((denseSchemaOf cfg).layerPfx ++ "." ++ toString i ++ "."
      ++ "self_attention.q_layernorm.weight") with _ | w
  · exact ⟨[], rfl⟩
  · rcases h : cfg.norm_has_bias with _ | _
    · simp [h]
    · simp [h, getKey_dense cfg s i "self_attn_q_layernorm_bias" rfl, Except.map]

theorem kNormFields_ok (cfg : Config) (s : Shard) (i : Nat) :
    ∃ fs, kNormFields cfg (schemaGetLayer (denseSchemaOf cfg) s i) = Except.ok fs := by
  unfold kNormFields
  rw [schemaGetLayer_dense_val cfg s i "self_attn_k_layernorm_weight"
    "self_attention.k_layernorm.weight" rfl]
  rcases hw : s.fetch ((denseSchemaOf cfg).layerPfx ++ "." ++ toString i ++ "."
      ++ "self_attention.k_layernorm.weight") with _ | w
  · exact ⟨[], rfl⟩
  · rcases h : cfg.norm_has_bias with _ | _
    · simp [h]
    · simp [h, getKey_dense cfg s i "self_attn_k_layernorm_bias" rfl, Except.map]

theorem serialFields_ok (cfg : Config) (s : Shard) (i : Nat) :
    ∃ fs, serialFields cfg (schemaGetLayer (denseSchemaOf cfg) s i) = Except.ok fs
      ∧ (cfg.add_bias_linear = true →
          List.lookup "dense bias" fs
            = some (TVal.val (roleVal cfg s i "self_attn_proj_bias"))
          ∧ List.lookup "mlp l1 bias" fs
            = some (TVal.val (roleVal cfg s i "mlp_fc2_bias"))) := by
  obtain ⟨qf, hq⟩ := qNormFields_ok cfg s i
  obtain ⟨kf, hk⟩ := kNormFields_ok cfg s i
  refine ⟨[("input norm weight", TVal.val (roleVal cfg s i "self_attn_norm_weight")),
      ("post norm weight", TVal.val (roleVal cfg s i "mlp_norm_weight"))]
      ++ (if cfg.norm_has_bias then
          [("input norm bias", TVal.val (roleVal cfg s i "self_attn_norm_bias")),
           ("post norm bias", TVal.val (roleVal cfg s i "mlp_norm_bias"))]
        else [])
      ++ (if cfg.add_bias_linear then
          [("dense bias", TVal.val (roleVal cfg s i "self_attn_proj_bias")),
           ("mlp l1 bias", TVal.val (roleVal cfg s i "mlp_fc2_bias"))]
        else [])
      ++ qf ++ kf ++ xieluFields (schemaGetLayer (denseSchemaOf cfg) s i), ?_, ?_⟩
  · unfold serialFields
    rw [getKey_dense cfg s i "self_attn_norm_weight" rfl,
      getKey_dense cfg s i "mlp_norm_weight" rfl,
      normBiasFields_ok, linBiasFields_ok, hq, hk]
    rfl
  · intro hbl
    have hpre : List.lookup "dense bias"
        ([("input norm weight", TVal.val (roleVal cfg s i "self_attn_norm_weight")),
          ("post norm weight", TVal.val (roleVal cfg s i "mlp_norm_weight"))]
          ++ (if cfg.norm_has_bias then
              [("input norm bias", TVal.val (roleVal cfg s i "self_attn_norm_bias")),
               ("post norm bias", TVal.val (roleVal cfg s i "mlp_norm_bias"))]
            else [])) = none := by
      rcases h : cfg.norm_has_bias with _ | _
      · rw [if_neg (by simp)]; rfl
      · rw [if_pos rfl]; rfl
    have hpre2 : List.lookup "mlp l1 bias"
        ([("input norm weight", TVal.val (roleVal cfg s i "self_attn_norm_weight")),
          ("post norm weight", TVal.val (roleVal cfg s i "mlp_norm_weight"))]
          ++ (if cfg.norm_has_bias then
              [("input norm bias", TVal.val (roleVal cfg s i "self_attn_norm_bias")),
               ("post norm bias", TVal.val (roleVal cfg s i "mlp_norm_bias"))]
            else [])) = none := by
      rcases h : cfg.norm_has_bias with _ | _
      · rw [if_neg (by simp)]; rfl
      · rw [if_pos rfl]; rfl
    constructor
    · refine lookup_append_some (lookup_append_some (lookup_append_some ?_))
      rw [lookup_append_none hpre, if_pos hbl]
      rfl
    · refine lookup_append_some (lookup_append_some (lookup_append_some ?_))
      rw [lookup_append_none hpre2, if_pos hbl]
      rfl

theorem gatherPar_ok (cfg : Config) (models : List Shard) (i : Nat) :
    gatherPar cfg (denseSchemaOf cfg) models i = Except.ok
      { qkv_weight := models.map (fun m => roleVal cfg m i "self_attn_qkv_weight"),
        qkv_bias := if cfg.add_qkv_bias then
            models.map (fun m => roleVal cfg m i "self_attn_qkv_bias") else [],
        dense_weight := models.map (fun m => roleVal cfg m i "self_attn_proj_weight"),
        mlp_l0_weight := models.map (fun m => roleVal cfg m i "mlp_fc1_weight"),
        mlp_l0_bias := if cfg.add_bias_linear then
            models.map (fun m => roleVal cfg m i "mlp_fc1_bias") else [],
        mlp_l1_weight := models.map (fun m => roleVal cfg m i "mlp_fc2_weight") } := by
  have h1 := mapM_ok models _ _ (fun m _ => getKey_dense cfg m i "self_attn_qkv_weight" rfl)
  have h2 := mapM_ok models _ _ (fun m _ => getKey_dense cfg m i "self_attn_proj_weight" rfl)
  have h3 := mapM_ok models _ _ (fun m _ => getKey_dense cfg m i "mlp_fc1_weight" rfl)
  have h4 := mapM_ok models _ _ (fun m _ => getKey_dense cfg m i "mlp_fc2_weight" rfl)
  have h5 := mapM_ok models _ _ (fun m _ => getKey_dense cfg m i "self_attn_qkv_bias" rfl)
  have h6 := mapM_ok models _ _ (fun m _ => getKey_dense cfg m i "mlp_fc1_bias" rfl)
  unfold gatherPar
  rw [h1, h2, h3, h4]
  rcases hq : cfg.add_qkv_bias with _ | _ <;> rcases hb : cfg.add_bias_linear with _ | _
  · rw [if_neg (by simp), if_neg (by simp)]; rfl
  · rw [if_neg (by simp), if_pos rfl, h6]; rfl
  · rw [if_pos rfl, if_neg (by simp), h5]; rfl
  · rw [if_pos rfl, if_pos rfl, h5, h6]; rfl

theorem mergePar_ok (cfg : Config) (p : ParTensors)
    (hqw : ∀ t ∈ p.qkv_weight, t.isSome = true)
    (hdw : ∀ t ∈ p.dense_weight, t.isSome = true)
    (hl0 : ∀ t ∈ p.mlp_l0_weight, t.isSome = true)
    (hl1 : ∀ t ∈ p.mlp_l1_weight, t.isSome = true)
    (hqb : cfg.add_qkv_bias = true → ∀ t ∈ p.qkv_bias, t.isSome = true)
    (hl0b : cfg.add_bias_linear = true → ∀ t ∈ p.mlp_l0_bias, t.isSome = true) :
    ∃ fs, mergePar cfg p = Except.ok fs := by
  have hw : ∃ l0f, l0WeightFields cfg p.mlp_l0_weight = Except.ok l0f := by
    unfold l0WeightFields
    rcases hs : cfg.swiglu with _ | _
    · rw [if_neg (by simp), catOpt0_ok _ hl0]; exact ⟨_, rfl⟩
    · rw [if_pos rfl, seqTensors_ok _ hl0]; exact ⟨_, rfl⟩
  have hqf : ∃ qbf, qkvBiasFields cfg p.qkv_bias = Except.ok qbf := by
    unfold qkvBiasFields
    rcases hq : cfg.add_qkv_bias with _ | _
    · rw [if_neg (by simp)]; exact ⟨[], rfl⟩
    · rw [if_pos rfl, catOpt0_ok _ (hqb hq)]; exact ⟨_, rfl⟩
  have hbf : ∃ l0bf, l0BiasFields cfg p.mlp_l0_bias = Except.ok l0bf := by
    unfold l0BiasFields
    rcases hb : cfg.add_bias_linear with _ | _
    · rw [if_neg (by simp)]; exact ⟨[], rfl⟩
    · rcases hs : cfg.swiglu with _ | _
      · rw [if_pos rfl, if_neg (by simp), catOpt0_ok _ (hl0b hb)]; exact ⟨_, rfl⟩
      · rw [if_pos rfl, if_pos rfl, seqTensors_ok _ (hl0b hb)]; exact ⟨_, rfl⟩
  obtain ⟨l0f, h10⟩ := hw
  obtain ⟨qbf, h11⟩ := hqf
  obtain ⟨l0bf, h12⟩ := hbf
  unfold mergePar
  rw [h10, catOpt0_ok _ hqw, catOpt1_ok _ hdw, catOpt1_ok _ hl1, h11, h12]
  exact ⟨_, rfl⟩

theorem buildLayerMessage_ok (cfg : Config) (models : List Shard) (i : Nat)
    (m0 : Shard) (hm : models.head? = some m0)
    (hqw : ∀ m ∈ models, (roleVal cfg m i "self_attn_qkv_weight").isSome = true)
    (hdw : ∀ m ∈ models, (roleVal cfg m i "self_attn_proj_weight").isSome = true)
    (hl0 : ∀ m ∈ models, (roleVal cfg m i "mlp_fc1_weight").isSome = true)
    (hl1 : ∀ m ∈ models, (roleVal cfg m i "mlp_fc2_weight").isSome = true)
    (hqb : cfg.add_qkv_bias = true →
      ∀ m ∈ models, (roleVal cfg m i "self_attn_qkv_bias").isSome = true)
    (hl0b : cfg.add_bias_linear = true →
      ∀ m ∈ models, (roleVal cfg m i "mlp_fc1_bias").isSome = true) :
    ∃ fields, buildLayerMessage cfg (denseSchemaOf cfg) models i = Except.ok fields
      ∧ (cfg.add_bias_linear = true →
          List.lookup "dense bias" fields
            = some (TVal.val (roleVal cfg m0 i "self_attn_proj_bias"))
          ∧ List.lookup "mlp l1 bias" fields
            = some (TVal.val (roleVal cfg m0 i "mlp_fc2_bias"))) := by
  obtain ⟨fs1, hs1, hlk⟩ := serialFields_ok cfg m0 i
  obtain ⟨fs2, hs2⟩ := mergePar_ok cfg
    { qkv_weight := models.map (fun m => roleVal cfg m i "self_attn_qkv_weight"),
      qkv_bias := if cfg.add_qkv_bias then
          models.map (fun m => roleVal cfg m i "self_attn_qkv_bias") else [],
      dense_weight := models.map (fun m => roleVal cfg m i "self_attn_proj_weight"),
      mlp_l0_weight := models.map (fun m => roleVal cfg m i "mlp_fc1_weight"),
      mlp_l0_bias := if cfg.add_bias_linear then
          models.map (fun m => roleVal cfg m i "mlp_fc1_bias") else [],
      mlp_l1_weight := models.map (fun m => roleVal cfg m i "mlp_fc2_weight") }
    (by rintro t ht
        obtain ⟨m, hm2, rfl⟩ := List.mem_map.mp ht
        exact hqw m hm2)
    (by rintro t ht
        obtain ⟨m, hm2, rfl⟩ := List.mem_map.mp ht
        exact hdw m hm2)
    (by rintro t ht
        obtain ⟨m, hm2, rfl⟩ := List.mem_map.mp ht
        exact hl0 m hm2)
    (by rintro t ht
        obtain ⟨m, hm2, rfl⟩ := List.mem_map.mp ht
        exact hl1 m hm2)
    (by intro hflag t ht
        rw [if_pos hflag] at ht
        obtain ⟨m, hm2, rfl⟩ := List.mem_map.mp ht
        exact hqb hflag m hm2)
    (by intro hflag t ht
        rw [if_pos hflag] at ht
        obtain ⟨m, hm2, rfl⟩ := List.mem_map.mp ht
        exact hl0b hflag m hm2)
  refine ⟨fs1 ++ fs2, ?_, ?_⟩
  · simp only [buildLayerMessage, hm]
    rw [hs1, gatherPar_ok]
    simp only [Except.bind]
    rw [hs2]
    rfl
  · intro hbl
    exact ⟨lookup_append_some (hlk hbl).1, lookup_append_some (hlk hbl).2⟩

theorem stageLayers_ok (cfg : Config) (schema : ModelSchema) (models : List Shard)
    (nums : List Nat) (t0 : Nat)
    (hbuild : ∀ i ∈ nums, ∃ fields,
      buildLayerMessage cfg schema models i = Except.ok fields) :
    ∃ msgs, stageLayers cfg schema models nums t0 = (msgs, none)
      ∧ msgs.map nameOf = nums.map (fun i => some (layerName (t0 + i)))
      ∧ msgs.length = nums.length := by
  induction nums with
  | nil => exact ⟨[], rfl, rfl, rfl⟩
  | cons i rest ih =>
    obtain ⟨fields, hf⟩ := hbuild i (List.mem_cons_self i rest)
    obtain ⟨msgs, hm, hn, hl⟩ := ih (fun j hj => hbuild j (List.mem_cons_of_mem i hj))
    refine ⟨Msg.named ("transformer layer " ++ toString (t0 + i)) fields :: msgs, ?_, ?_, ?_⟩
    · rw [stageLayers, hf, hm]
    · simp [hn, nameOf, layerName]
    · simp [hl]

theorem stageLayers_names (cfg : Config) (schema : ModelSchema) (models : List Shard)
    (nums : List Nat) (t0 : Nat) :
    ∀ msgs, stageLayers cfg schema models nums t0 = (msgs, none) →
      msgs.map nameOf = nums.map (fun i => some (layerName (t0 + i)))
      ∧ msgs.length = nums.length := by
  induction nums with
  | nil =>
    intro msgs h
    rw [stageLayers] at h
    cases h
    exact ⟨rfl, rfl⟩
  | cons i rest ih =>
    intro msgs h
    rw [stageLayers] at h
    rcases hb : buildLayerMessage cfg schema models i with f | fields
    · rw [hb] at h; cases h
    · rw [hb] at h
      rcases hr : stageLayers cfg schema models rest t0 with ⟨ms, fl⟩
      rw [hr] at h
      cases h
      obtain ⟨hn, hl⟩ := ih ms hr
      exact ⟨by simp [hn, nameOf, layerName], by simp [hl]⟩

theorem mapM_get?_all (ms : List Shard) (l : List Nat)
    (h : ∀ v ∈ l, v < ms.length) :
    l.mapM (fun v => ms.get? v)
      = some (l.map (fun v => (ms.get? v).getD defaultShard)) := by
  induction l with
  | nil => rfl
  | cons v rest ih =>
    have hv := h v (List.mem_cons_self v rest)
    rcases hg : ms.get? v with _ | a
    · exact absurd (List.get?_eq_none.mp hg) (by omega)
    · rw [List.mapM_cons, hg, ih (fun b hb => h b (List.mem_cons_of_mem v hb))]
      simp only [List.map_cons, ← List.get?_eq_getElem?, hg]
      rfl

theorem appendModels_ok (vpS : Nat) (rl : RankLoad) (acc : List (List Shard))
    (h : rl.models.length = vpS) :
    appendModels vpS rl acc = Except.ok (List.zipWith (fun a m => a ++ [m]) acc
      ((List.range vpS).map (fun v => (rl.models.get? v).getD defaultShard))) := by
  rw [appendModels, mapM_get?_all rl.models (List.range vpS)
    (fun v hv => by rw [h]; exact List.mem_range.mp hv)]

theorem zipWith_map_same {α β γ δ : Type} (F : β → γ → δ) (f : α → β) (g : α → γ)
    (l : List α) :
    List.zipWith F (l.map f) (l.map g) = l.map (fun x => F (f x) (g x)) := by
  induction l with
  | nil => rfl
  | cons a l ih => simp [ih]

theorem checkConsumed_ok (c c' : Nat) (rl : RankLoad)
    (h1 : rl.consumed_train_samples = c) (h2 : rl.consumed_valid_samples = c') :
    checkConsumed ⟨some c, some c'⟩ rl = Except.ok ⟨some c, some c'⟩ := by
  simp [checkConsumed, h1, h2]

theorem gmLoop_ok (prov : Provider) (vpS pp : Nat) (c c' : Nat) :
    ∀ (rks : List Nat) (acc : List (List Shard)) (f : Nat → List Shard),
    (∀ r ∈ rks, (prov.load pp r).models.length = vpS) →
    (∀ r ∈ rks, (prov.load pp r).consumed_train_samples = c) →
    (∀ r ∈ rks, (prov.load pp r).consumed_valid_samples = c') →
    acc = (List.range vpS).map f →
    gmLoop prov vpS pp rks ⟨some c, some c'⟩ acc
      = Except.ok ((List.range vpS).map
          (fun v => f v ++ rks.map (fun r => shardAt prov pp r v)), ⟨some c, some c'⟩) := by
  intro rks
  induction rks with
  | nil =>
    intro acc f _ _ _ hacc
    simp [gmLoop, hacc]
  | cons r rest ih =>
    intro acc f hlen hct hcv hacc
    rw [gmLoop, checkConsumed_ok c c' _ (hct r (List.mem_cons_self r rest))
        (hcv r (List.mem_cons_self r rest)),
      appendModels_ok vpS _ acc (hlen r (List.mem_cons_self r rest))]
    dsimp only
    rw [hacc, zipWith_map_same]
    rw [ih _ (fun v => f v ++ [((prov.load pp r).models.get? v).getD defaultShard])
      (fun b hb => hlen b (List.mem_cons_of_mem r hb))
      (fun b hb => hct b (List.mem_cons_of_mem r hb))
      (fun b hb => hcv b (List.mem_cons_of_mem r hb)) rfl]
    simp [shardAt, List.append_assoc]

theorem get_models_ok (prov : Provider) (vpS tpS pp : Nat) (c c' : Nat)
    (hlen : ∀ r, r < tpS → (prov.load pp r).models.length = vpS)
    (hct : ∀ r, r < tpS → (prov.load pp r).consumed_train_samples = c)
    (hcv : ∀ r, r < tpS → (prov.load pp r).consumed_valid_samples = c') :
    get_models prov vpS pp tpS ⟨some c, some c'⟩
      = Except.ok (stageMatrix prov vpS tpS pp, ⟨some c, some c'⟩) := by
  rw [get_models, gmLoop_ok prov vpS pp c c' (List.range tpS) _ (fun _ => [])
    (fun r hr => hlen r (List.mem_range.mp hr))
    (fun r hr => hct r (List.mem_range.mp hr))
    (fun r hr => hcv r (List.mem_range.mp hr)) rfl]
  simp [stageMatrix]

theorem checkConsumed_init (rl : RankLoad) :
    checkConsumed ⟨none, none⟩ rl
      = Except.ok ⟨some rl.consumed_train_samples, some rl.consumed_valid_samples⟩ := by
  simp [checkConsumed]

theorem get_models_init_ok (prov : Provider) (vpS tpS : Nat) (c c' : Nat)
    (htp : 0 < tpS)
    (hlen : ∀ r, r < tpS → (prov.load 0 r).models.length = vpS)
    (hct : ∀ r, r < tpS → (prov.load 0 r).consumed_train_samples = c)
    (hcv : ∀ r, r < tpS → (prov.load 0 r).consumed_valid_samples = c') :
    get_models prov vpS 0 tpS ⟨none, none⟩
      = Except.ok (stageMatrix prov vpS tpS 0, ⟨some c, some c'⟩) := by
  obtain ⟨n, hn⟩ : ∃ n, tpS = n + 1 := ⟨tpS - 1, by omega⟩
  subst hn
  rw [get_models, List.range_succ_eq_map, gmLoop, checkConsumed_init,
    hct 0 (by omega), hcv 0 (by omega),
    appendModels_ok vpS _ _ (hlen 0 (by omega))]
  rw [zipWith_map_same]
  dsimp only
  have hmm := gmLoop_ok prov vpS 0 c c' ((List.range n).map Nat.succ)
    ((List.range vpS).map (fun v => [] ++ [(((prov.load 0 0).models.get? v).getD defaultShard)]))
    (fun v => [] ++ [(((prov.load 0 0).models.get? v).getD defaultShard)])
    (fun r hr => hlen r (by obtain ⟨b, hb, rfl⟩ := List.mem_map.mp hr; have := List.mem_range.mp hb; omega))
    (fun r hr => hct r (by obtain ⟨b, hb, rfl⟩ := List.mem_map.mp hr; have := List.mem_range.mp hb; omega))
    (fun r hr => hcv r (by obtain ⟨b, hb, rfl⟩ := List.mem_map.mp hr; have := List.mem_range.mp hb; omega)) rfl
  rw [hmm]
  simp only [stageMatrix]
  refine congrArg Except.ok
    (congrArg (fun x => (x, (⟨some c, some c'⟩ : CState))) ?_)
  refine List.map_congr_left ?_
  intro v _
  rw [List.range_succ_eq_map]
  simp [shardAt, List.map_map, Function.comp]

theorem stageMatrix_get (prov : Provider) (vpS tpS pp v : Nat) (hv : v < vpS) :
    (stageMatrix prov vpS tpS pp).get? v
      = some ((List.range tpS).map (fun t => shardAt prov pp t v)) := by
  simp [stageMatrix, List.get?_eq_getElem?, List.getElem?_map, List.getElem?_range, hv]

theorem row_head (prov : Provider) (tpS pp v : Nat) (htp : 0 < tpS) :
    ((List.range tpS).map (fun t => shardAt prov pp t v)).head?
      = some (shardAt prov pp 0 v) := by
  obtain ⟨m, rfl⟩ : ∃ m, tpS = m + 1 := ⟨tpS - 1, by omega⟩
  rw [List.range_succ_eq_map]
  simp

theorem stageRow_builds (cfg : Config) (prov : Provider) (hw : WFnc cfg prov)
    (pp v : Nat) (hpp : pp < cfg.pipeline_parallel_size) (hv : v < vp_size cfg) :
    ∀ i ∈ List.range (layersPer cfg), ∃ fields,
      buildLayerMessage cfg (denseSchemaOf cfg)
        ((List.range cfg.tensor_parallel_size).map (fun t => shardAt prov pp t v)) i
      = Except.ok fields := by
  intro i hi
  have hi2 := List.mem_range.mp hi
  have hmem : ∀ m ∈ (List.range cfg.tensor_parallel_size).map
      (fun t => shardAt prov pp t v), ∃ t, t < cfg.tensor_parallel_size
        ∧ m = shardAt prov pp t v := by
    intro m hm
    obtain ⟨t, ht, rfl⟩ := List.mem_map.mp hm
    exact ⟨t, List.mem_range.mp ht, rfl⟩
  obtain ⟨fields, hf, _⟩ := buildLayerMessage_ok cfg _ i (shardAt prov pp 0 v)
    (row_head prov _ pp v hw.tp_pos)
    (fun m hm => by obtain ⟨t, ht, rfl⟩ := hmem m hm
                    exact hw.qkv_present pp t v i hpp ht hv hi2)
    (fun m hm => by obtain ⟨t, ht, rfl⟩ := hmem m hm
                    exact hw.proj_present pp t v i hpp ht hv hi2)
    (fun m hm => by obtain ⟨t, ht, rfl⟩ := hmem m hm
                    exact hw.fc1_present pp t v i hpp ht hv hi2)
    (fun m hm => by obtain ⟨t, ht, rfl⟩ := hmem m hm
                    exact hw.fc2_present pp t v i hpp ht hv hi2)
    (fun hflag m hm => by obtain ⟨t, ht, rfl⟩ := hmem m hm
                          exact hw.qkvb_present hflag pp t v i hpp ht hv hi2)
    (fun hflag m hm => by obtain ⟨t, ht, rfl⟩ := hmem m hm
                          exact hw.fc1b_present hflag pp t v i hpp ht hv hi2)
  exact ⟨fields, hf⟩

theorem get?_map_range {β : Type} (f : Nat → β) (n m : Nat) (h : m < n) :
    ((List.range n).map f).get? m = some (f m) := by
  simp [List.get?_eq_getElem?, List.getElem?_map, List.getElem?_range, h]

theorem names_range' (t0 L : Nat) :
    ((List.range' t0 L).map (fun k => some (layerName k)) : List (Option String))
      = (List.range L).map (fun i => some (layerName (t0 + i))) := by
  rw [List.range'_eq_map_range, List.map_map]
  rfl

theorem ppStep_vp0_ok (cfg : Config) (prov : Provider) (hw : WFnc cfg prov)
    (pp : Nat) (hpp : pp < cfg.pipeline_parallel_size)
    (hag : ∀ r, r < cfg.tensor_parallel_size →
      (prov.load pp r).consumed_train_samples = (prov.load 0 0).consumed_train_samples
      ∧ (prov.load pp r).consumed_valid_samples = (prov.load 0 0).consumed_valid_samples)
    (st : LoopSt)
    (hall : st.allModels = (List.range (max pp 1)).map
      (stageMatrix prov (vp_size cfg) cfg.tensor_parallel_size))
    (hcst : st.cst = ⟨some (prov.load 0 0).consumed_train_samples,
      some (prov.load 0 0).consumed_valid_samples⟩) :
    ∃ Δ, ppStep cfg prov (denseSchemaOf cfg) 0 pp st
      = ({ allModels := (List.range (pp + 1)).map
             (stageMatrix prov (vp_size cfg) cfg.tensor_parallel_size),
           cst := ⟨some (prov.load 0 0).consumed_train_samples,
             some (prov.load 0 0).consumed_valid_samples⟩,
           total := st.total + layersPer cfg,
           cur := (List.range cfg.tensor_parallel_size).map
             (fun t => shardAt prov pp t 0),
           msgs := st.msgs ++ Δ }, none)
      ∧ Δ.map nameOf = (List.range' st.total (layersPer cfg)).map
          (fun k => some (layerName k))
      ∧ Δ.length = layersPer cfg := by
  obtain ⟨sa, sc, stt, scur, sm⟩ := st
  simp only at hall hcst
  subst hall
  subst hcst
  obtain ⟨Δ, hΔ, hn, hl⟩ := stageLayers_ok cfg (denseSchemaOf cfg)
    ((List.range cfg.tensor_parallel_size).map (fun t => shardAt prov pp t 0))
    (List.range (layersPer cfg)) stt
    (stageRow_builds cfg prov hw pp 0 hpp hw.vp_pos)
  have hl2 : Δ.length = layersPer cfg := by simpa using hl
  refine ⟨Δ, ?_, by rw [names_range']; exact hn, hl2⟩
  rcases Nat.eq_zero_or_pos pp with rfl | hp0
  · simp only [ppStep, ppStepEmit]
    rw [if_neg (by omega : ¬(0:Nat) > 0)]
    try dsimp only
    rw [show ((List.range (max 0 1)).map
        (stageMatrix prov (vp_size cfg) cfg.tensor_parallel_size)).get? 0
      = some (stageMatrix prov (vp_size cfg) cfg.tensor_parallel_size 0) from rfl]
    try dsimp only
    rw [stageMatrix_get prov _ _ 0 0 hw.vp_pos]
    try dsimp only
    rw [row_head prov _ 0 0 hw.tp_pos]
    try dsimp only
    rw [show schemaNumLayers (shardAt prov 0 0 0) = layersPer cfg from
      hw.shard_layers 0 0 0 hpp hw.tp_pos hw.vp_pos]
    rw [hΔ]
    simp [hl2]
  · simp only [ppStep, ppStepEmit]
    rw [if_pos hp0]
    try dsimp only
    rw [get_models_ok prov (vp_size cfg) cfg.tensor_parallel_size pp
      (prov.load 0 0).consumed_train_samples (prov.load 0 0).consumed_valid_samples
      (fun r hr => hw.models_len pp r hpp hr)
      (fun r hr => (hag r hr).1)
      (fun r hr => (hag r hr).2)]
    simp only [Except.map]
    have happ : (List.range (max pp 1)).map
        (stageMatrix prov (vp_size cfg) cfg.tensor_parallel_size)
        ++ [stageMatrix prov (vp_size cfg) cfg.tensor_parallel_size pp]
      = (List.range (pp + 1)).map
        (stageMatrix prov (vp_size cfg) cfg.tensor_parallel_size) := by
      rw [Nat.max_eq_left hp0, List.range_succ, List.map_append]
      rfl
    rw [happ]
    rw [if_pos trivial]
    try dsimp only
    rw [get?_map_range _ _ pp (by omega)]
    try dsimp only
    rw [stageMatrix_get prov _ _ pp 0 hw.vp_pos]
    try dsimp only
    rw [row_head prov _ pp 0 hw.tp_pos]
    try dsimp only
    rw [show schemaNumLayers (shardAt prov pp 0 0) = layersPer cfg from
      hw.shard_layers pp 0 0 hpp hw.tp_pos hw.vp_pos]
    rw [hΔ]
    simp [hl2]

theorem ppStep_vpk_ok (cfg : Config) (prov : Provider) (hw : WF cfg prov)
    (vp pp : Nat) (hvp : vp < vp_size cfg) (hvp0 : vp ≠ 0)
    (hpp : pp < cfg.pipeline_parallel_size) (st : LoopSt)
    (hall : st.allModels = (List.range cfg.pipeline_parallel_size).map
      (stageMatrix prov (vp_size cfg) cfg.tensor_parallel_size)) :
    ∃ Δ, ppStep cfg prov (denseSchemaOf cfg) vp pp st
      = ({ allModels := (List.range cfg.pipeline_parallel_size).map
             (stageMatrix prov (vp_size cfg) cfg.tensor_parallel_size),
           cst := st.cst,
           total := st.total + layersPer cfg,
           cur := (List.range cfg.tensor_parallel_size).map
             (fun t => shardAt prov pp t vp),
           msgs := st.msgs ++ Δ }, none)
      ∧ Δ.map nameOf = (List.range' st.total (layersPer cfg)).map
          (fun k => some (layerName k))
      ∧ Δ.length = layersPer cfg := by
  obtain ⟨sa, sc, stt, scur, sm⟩ := st
  simp only at hall
  subst hall
  obtain ⟨Δ, hΔ, hn, hl⟩ := stageLayers_ok cfg (denseSchemaOf cfg)
    ((List.range cfg.tensor_parallel_size).map (fun t => shardAt prov pp t vp))
    (List.range (layersPer cfg)) stt
    (stageRow_builds cfg prov hw.toWFnc pp vp hpp hvp)
  have hl2 : Δ.length = layersPer cfg := by simpa using hl
  refine ⟨Δ, ?_, by rw [names_range']; exact hn, hl2⟩
  rcases Nat.eq_zero_or_pos pp with rfl | hp0
  · simp only [ppStep, ppStepEmit]
    rw [if_neg (by omega : ¬(0:Nat) > 0)]
    try dsimp only
    rw [get?_map_range _ _ 0 hpp]
    try dsimp only
    rw [stageMatrix_get prov _ _ 0 vp hvp]
    try dsimp only
    rw [row_head prov _ 0 vp hw.tp_pos]
    try dsimp only
    rw [show schemaNumLayers (shardAt prov 0 0 vp) = layersPer cfg from
      hw.shard_layers 0 0 vp hpp hw.tp_pos hvp]
    rw [hΔ]
    simp [hl2]
  · simp only [ppStep, ppStepEmit]
    rw [if_pos hp0, if_neg hvp0]
    try dsimp only
    rw [get?_map_range _ _ pp hpp]
    try dsimp only
    rw [stageMatrix_get prov _ _ pp vp hvp]
    try dsimp only
    rw [row_head prov _ pp vp hw.tp_pos]
    try dsimp only
    rw [show schemaNumLayers (shardAt prov pp 0 vp) = layersPer cfg from
      hw.shard_layers pp 0 vp hpp hw.tp_pos hvp]
    rw [hΔ]
    simp [hl2]

theorem ppLoop_vp0_ok (cfg : Config) (prov : Provider) (hw : WFnc cfg prov) :
    ∀ (n s : Nat), s + n ≤ cfg.pipeline_parallel_size →
    (∀ p r, p < s + n → r < cfg.tensor_parallel_size →
      (prov.load p r).consumed_train_samples = (prov.load 0 0).consumed_train_samples
      ∧ (prov.load p r).consumed_valid_samples = (prov.load 0 0).consumed_valid_samples) →
    ∀ st : LoopSt,
    st.allModels = (List.range (max s 1)).map
      (stageMatrix prov (vp_size cfg) cfg.tensor_parallel_size) →
    st.cst = ⟨some (prov.load 0 0).consumed_train_samples,
      some (prov.load 0 0).consumed_valid_samples⟩ →
    ∃ Δ st', ppLoop cfg prov (denseSchemaOf cfg) 0 (List.range' s n) st = (st', none)
      ∧ st'.allModels = (List.range (max (s + n) 1)).map
          (stageMatrix prov (vp_size cfg) cfg.tensor_parallel_size)
      ∧ st'.cst = ⟨some (prov.load 0 0).consumed_train_samples,
          some (prov.load 0 0).consumed_valid_samples⟩
      ∧ st'.total = st.total + n * layersPer cfg
      ∧ st'.msgs = st.msgs ++ Δ
      ∧ Δ.map nameOf = (List.range' st.total (n * layersPer cfg)).map
          (fun k => some (layerName k))
      ∧ st'.cur = (if n = 0 then st.cur else
          (List.range cfg.tensor_parallel_size).map
            (fun t => shardAt prov (s + n - 1) t 0)) := by
  intro n
  induction n with
  | zero =>
    intro s hs hag st hall hcst
    refine ⟨[], st, rfl, ?_, hcst, by omega, by simp, by simp, by simp⟩
    simpa using hall
  | succ n ih =>
    intro s hs hag st hall hcst
    obtain ⟨Δ1, hstep, hn1, hl1⟩ := ppStep_vp0_ok cfg prov hw s (by omega)
      (fun r hr => hag s r (by omega) hr) st hall hcst
    obtain ⟨Δ2, st', hloop, hall', hcst', htot', hmsgs', hn2, hcur'⟩ :=
      ih (s + 1) (by omega) (fun p r hp hr => hag p r (by omega) hr)
        { allModels := (List.range (s + 1)).map
            (stageMatrix prov (vp_size cfg) cfg.tensor_parallel_size),
          cst := ⟨some (prov.load 0 0).consumed_train_samples,
            some (prov.load 0 0).consumed_valid_samples⟩,
          total := st.total + layersPer cfg,
          cur := (List.range cfg.tensor_parallel_size).map (fun t => shardAt prov s t 0),
          msgs := st.msgs ++ Δ1 }
        (by simp [Nat.max_eq_left (by omega : 1 ≤ s + 1)]) rfl
    try dsimp only at hall' hcst' htot' hmsgs' hn2 hcur'
    refine ⟨Δ1 ++ Δ2, st', ?_, ?_, hcst', ?_, ?_, ?_, ?_⟩
    · rw [show List.range' s (n + 1) = s :: List.range' (s + 1) n from rfl, ppLoop, hstep]
      exact hloop
    · rw [hall']
      have he : s + 1 + n = s + (n + 1) := by omega
      rw [he]
    · rw [htot', Nat.succ_mul]
      omega
    · rw [hmsgs', List.append_assoc]
    · rw [List.map_append, hn1, hn2]
      rw [← List.map_append]
      congr 1
      rw [show st.total + layersPer cfg = st.total + 1 * layersPer cfg by omega,
        List.range'_append st.total (layersPer cfg) (n * layersPer cfg) 1]
      congr 1
      rw [Nat.succ_mul]
    · rw [hcur']
      rcases Nat.eq_zero_or_pos n with rfl | hn0
      · simp
      · rw [if_neg (by omega), if_neg (by omega)]
        have he : s + 1 + n - 1 = s + (n + 1) - 1 := by omega
        rw [he]

theorem ppLoop_vpk_ok (cfg : Config) (prov : Provider) (hw : WF cfg prov)
    (vp : Nat) (hvp : vp < vp_size cfg) (hvp0 : vp ≠ 0) :
    ∀ (n s : Nat), s + n = cfg.pipeline_parallel_size → ∀ st : LoopSt,
    st.allModels = (List.range cfg.pipeline_parallel_size).map
      (stageMatrix prov (vp_size cfg) cfg.tensor_parallel_size) →
    ∃ Δ st', ppLoop cfg prov (denseSchemaOf cfg) vp (List.range' s n) st = (st', none)
      ∧ st'.allModels = (List.range cfg.pipeline_parallel_size).map
          (stageMatrix prov (vp_size cfg) cfg.tensor_parallel_size)
      ∧ st'.cst = st.cst
      ∧ st'.total = st.total + n * layersPer cfg
      ∧ st'.msgs = st.msgs ++ Δ
      ∧ Δ.map nameOf = (List.range' st.total (n * layersPer cfg)).map
          (fun k => some (layerName k))
      ∧ st'.cur = (if n = 0 then st.cur else
          (List.range cfg.tensor_parallel_size).map
            (fun t => shardAt prov (s + n - 1) t vp)) := by
  intro n
  induction n with
  | zero =>
    intro s hs st hall
    exact ⟨[], st, rfl, hall, rfl, by omega, by simp, by simp, by simp⟩
  | succ n ih =>
    intro s hs st hall
    obtain ⟨Δ1, hstep, hn1, hl1⟩ := ppStep_vpk_ok cfg prov hw vp s hvp hvp0 (by omega) st hall
    obtain ⟨Δ2, st', hloop, hall', hcst', htot', hmsgs', hn2, hcur'⟩ :=
      ih (s + 1) (by omega)
        { allModels := (List.range cfg.pipeline_parallel_size).map
            (stageMatrix prov (vp_size cfg) cfg.tensor_parallel_size),
          cst := st.cst,
          total := st.total + layersPer cfg,
          cur := (List.range cfg.tensor_parallel_size).map (fun t => shardAt prov s t vp),
          msgs := st.msgs ++ Δ1 }
        rfl
    try dsimp only at hall' hcst' htot' hmsgs' hn2 hcur'
    refine ⟨Δ1 ++ Δ2, st', ?_, hall', hcst', ?_, ?_, ?_, ?_⟩
    · rw [show List.range' s (n + 1) = s :: List.range' (s + 1) n from rfl, ppLoop, hstep]
      exact hloop
    · rw [htot', Nat.succ_mul]
      omega
    · rw [hmsgs', List.append_assoc]
    · rw [List.map_append, hn1, hn2]
      rw [← List.map_append]
      congr 1
      rw [show st.total + layersPer cfg = st.total + 1 * layersPer cfg by omega,
        List.range'_append st.total (layersPer cfg) (n * layersPer cfg) 1]
      congr 1
      rw [Nat.succ_mul]
    · rw [hcur']
      rcases Nat.eq_zero_or_pos n with rfl | hn0
      · simp
      · rw [if_neg (by omega), if_neg (by omega)]
        have he : s + 1 + n - 1 = s + (n + 1) - 1 := by omega
        rw [he]

theorem vpLoop_tail_ok (cfg : Config) (prov : Provider) (hw : WF cfg prov) :
    ∀ (k v0 : Nat), 1 ≤ v0 → v0 + k ≤ vp_size cfg → ∀ st : LoopSt,
    st.allModels = (List.range cfg.pipeline_parallel_size).map
      (stageMatrix prov (vp_size cfg) cfg.tensor_parallel_size) →
    ∃ Δ st', vpLoop cfg prov (denseSchemaOf cfg) (List.range' v0 k) st = (st', none)
      ∧ st'.allModels = (List.range cfg.pipeline_parallel_size).map
          (stageMatrix prov (vp_size cfg) cfg.tensor_parallel_size)
      ∧ st'.cst = st.cst
      ∧ st'.total = st.total + k * (cfg.pipeline_parallel_size * layersPer cfg)
      ∧ st'.msgs = st.msgs ++ Δ
      ∧ Δ.map nameOf = (List.range' st.total
          (k * (cfg.pipeline_parallel_size * layersPer cfg))).map
          (fun j => some (layerName j))
      ∧ st'.cur = (if k = 0 then st.cur else
          (List.range cfg.tensor_parallel_size).map
            (fun t => shardAt prov (cfg.pipeline_parallel_size - 1) t (v0 + k - 1))) := by
  intro k
  induction k with
  | zero =>
    intro v0 hv0 hvk st hall
    exact ⟨[], st, rfl, hall, rfl, by omega, by simp, by simp, by simp⟩
  | succ k ih =>
    intro v0 hv0 hvk st hall
    obtain ⟨Δ1, st1, hpass, hall1, hcst1, htot1, hmsgs1, hn1, hcur1⟩ :=
      ppLoop_vpk_ok cfg prov hw v0 (by omega) (by omega)
        cfg.pipeline_parallel_size 0 (by omega) st hall
    obtain ⟨Δ2, st', hloop, hall', hcst', htot', hmsgs', hn2, hcur'⟩ :=
      ih (v0 + 1) (by omega) (by omega) st1 hall1
    refine ⟨Δ1 ++ Δ2, st', ?_, hall', by rw [hcst', hcst1], ?_, ?_, ?_, ?_⟩
    · rw [show List.range' v0 (k + 1) = v0 :: List.range' (v0 + 1) k from rfl, vpLoop,
        List.range_eq_range', hpass]
      exact hloop
    · rw [htot', htot1, Nat.succ_mul]
      omega
    · rw [hmsgs', hmsgs1, List.append_assoc]
    · rw [List.map_append, hn1, hn2, htot1]
      rw [← List.map_append]
      congr 1
      rw [show st.total + cfg.pipeline_parallel_size * layersPer cfg
          = st.total + 1 * (cfg.pipeline_parallel_size * layersPer cfg) by omega,
        List.range'_append st.total (cfg.pipeline_parallel_size * layersPer cfg)
          (k * (cfg.pipeline_parallel_size * layersPer cfg)) 1]
      congr 1
      rw [Nat.succ_mul]
    · rw [hcur']
      rcases Nat.eq_zero_or_pos k with rfl | hk0
      · rw [if_pos rfl, if_neg (by omega), hcur1,
          if_neg (by have := hw.pp_pos; omega)]
        congr 1
        funext t
        congr 1
        omega
      · rw [if_neg (by omega), if_neg (by omega)]
        congr 1
        funext t
        congr 1
        omega

theorem vpLoop_master (cfg : Config) (prov : Provider) (hw : WF cfg prov) :
    ∃ Δ st', vpLoop cfg prov (denseSchemaOf cfg) (List.range (vp_size cfg))
        { allModels := [stageMatrix prov (vp_size cfg) cfg.tensor_parallel_size 0],
          cst := ⟨some (prov.load 0 0).consumed_train_samples,
            some (prov.load 0 0).consumed_valid_samples⟩,
          total := 0,
          cur := (List.range cfg.tensor_parallel_size).map (fun t => shardAt prov 0 t 0),
          msgs := [] }
      = (st', none)
      ∧ st'.allModels = (List.range cfg.pipeline_parallel_size).map
          (stageMatrix prov (vp_size cfg) cfg.tensor_parallel_size)
      ∧ st'.cur = (List.range cfg.tensor_parallel_size).map
          (fun t => shardAt prov (cfg.pipeline_parallel_size - 1) t (vp_size cfg - 1))
      ∧ st'.msgs = Δ
      ∧ Δ.map nameOf = (List.range
          (vp_size cfg * cfg.pipeline_parallel_size * layersPer cfg)).map
          (fun j => some (layerName j)) := by
  obtain ⟨m, hm⟩ : ∃ m, vp_size cfg = m + 1 := ⟨vp_size cfg - 1, by have := hw.vp_pos; omega⟩
  have hrange : List.range (vp_size cfg) = 0 :: List.range' 1 m := by
    rw [hm, List.range_eq_range']
    rfl
  obtain ⟨Δ1, st1, hpass, hall1, hcst1, htot1, hmsgs1, hn1, hcur1⟩ :=
    ppLoop_vp0_ok cfg prov hw.toWFnc cfg.pipeline_parallel_size 0 (by omega)
      (fun p r hp hr => ⟨hw.consumed_train_eq p r (by omega) hr,
        hw.consumed_valid_eq p r (by omega) hr⟩)
      { allModels := [stageMatrix prov (vp_size cfg) cfg.tensor_parallel_size 0],
        cst := ⟨some (prov.load 0 0).consumed_train_samples,
          some (prov.load 0 0).consumed_valid_samples⟩,
        total := 0,
        cur := (List.range cfg.tensor_parallel_size).map (fun t => shardAt prov 0 t 0),
        msgs := [] }
      rfl rfl
  try dsimp only at hall1 hcst1 htot1 hmsgs1 hn1 hcur1
  have hall1b : st1.allModels = (List.range cfg.pipeline_parallel_size).map
      (stageMatrix prov (vp_size cfg) cfg.tensor_parallel_size) := by
    rw [hall1, Nat.max_eq_left (by have := hw.pp_pos; omega), Nat.zero_add]
  obtain ⟨Δ2, st', hloop, hall', hcst', htot', hmsgs', hn2, hcur'⟩ :=
    vpLoop_tail_ok cfg prov hw m 1 (by omega) (by omega) st1 hall1b
  refine ⟨Δ1 ++ Δ2, st', ?_, hall', ?_, ?_, ?_⟩
  · rw [hrange, vpLoop, List.range_eq_range', hpass]
    exact hloop
  · rw [hcur']
    rcases Nat.eq_zero_or_pos m with rfl | hm0
    · rw [if_pos rfl, hcur1, if_neg (by have := hw.pp_pos; omega)]
      congr 1
      funext t
      congr 1
      · omega
      · omega
    · rw [if_neg (by omega)]
      congr 1
      funext t
      congr 1
      omega
  · rw [hmsgs', hmsgs1]
    simp
  · rw [List.map_append, hn1, hn2, htot1]
    rw [← List.map_append]
    rw [List.range_eq_range']
    congr 1
    have h0 : (0:Nat) + cfg.pipeline_parallel_size * layersPer cfg
        = 0 + 1 * (cfg.pipeline_parallel_size * layersPer cfg) := by omega
    rw [h0, List.range'_append 0 (cfg.pipeline_parallel_size * layersPer cfg)
      (m * (cfg.pipeline_parallel_size * layersPer cfg)) 1]
    congr 1
    rw [hm, Nat.succ_mul]
    ring

theorem bind_ok_inv {α β : Type} {x : Except Fault α} {f : α → Except Fault β}
    {b : β} (h : x.bind f = Except.ok b) : ∃ a, x = Except.ok a ∧ f a = Except.ok b := by
  cases x with
  | error e => simp [Except.bind] at h
  | ok a => exact ⟨a, rfl, h⟩

theorem map_ok_inv {α β : Type} {x : Except Fault α} {f : α → β}
    {b : β} (h : x.map f = Except.ok b) : ∃ a, x = Except.ok a ∧ f a = b := by
  cases x with
  | error e => simp [Except.map] at h
  | ok a =>
    refine ⟨a, rfl, ?_⟩
    simpa [Except.map] using h

theorem denseEmb_eq (cfg : Config) :
    (denseSchemaOf cfg).embeddings
      = [("pos", "embedding.position_embeddings.weight"),
         ("word", "embedding.word_embeddings.weight")] := by
  cases h : cfg.transformer_impl <;> simp only [denseSchemaOf, h] <;> rfl

theorem getKey_sec (sec : List (String × String)) (m : Shard) (key p : String)
    (hl : lookupStr key sec = some p) :
    getKey (schemaGet sec m) key = Except.ok (m.fetch p) := by
  simp [getKey, schemaGet, hl]

theorem embMessage_ok (cfg : Config) (prov : Provider) (hw : WFnc cfg prov) :
    ∃ msg, embMessage cfg (denseSchemaOf cfg)
      ((List.range cfg.tensor_parallel_size).map (fun t => shardAt prov 0 t 0))
      = Except.ok msg := by
  have hword : ∀ m ∈ (List.range cfg.tensor_parallel_size).map (fun t => shardAt prov 0 t 0),
      getKey (schemaGet (denseSchemaOf cfg).embeddings m) "word"
        = Except.ok (m.fetch "embedding.word_embeddings.weight") :=
    fun m _ => getKey_sec _ m "word" _ (by rw [denseEmb_eq]; rfl)
  have hsome : ∀ t ∈ ((List.range cfg.tensor_parallel_size).map (fun t => shardAt prov 0 t 0)).map
      (fun m => m.fetch "embedding.word_embeddings.weight"), t.isSome = true := by
    intro t ht
    rw [List.map_map] at ht
    obtain ⟨r, hr, rfl⟩ := List.mem_map.mp ht
    exact hw.word_present r (List.mem_range.mp hr)
  rw [embMessage, mapM_ok _ _ _ hword]
  simp only [Except.bind]
  rw [catOpt0_ok _ hsome]
  simp only [Except.bind]
  rw [row_head prov _ 0 0 hw.tp_pos]
  try dsimp only
  rw [getKey_sec _ _ "pos" _ (by rw [denseEmb_eq]; rfl)]
  simp only [Except.bind]
  rcases hpe : cfg.position_embedding_type with _ | _
  · rw [if_pos rfl]
    exact ⟨_, rfl⟩
  · rw [if_neg (by simp)]
    rw [hw.pos_absent (by rw [hpe]; simp)]
    exact ⟨_, rfl⟩

theorem embMessage_shape (cfg : Config) (schema : ModelSchema) (models : List Shard)
    (msg : Msg) (h : embMessage cfg schema models = Except.ok msg) :
    ∃ ef, msg = Msg.named "embeddings" ef
      ∧ (hasFieldB ef "position embeddings" = true
          ↔ cfg.position_embedding_type = PosEmbK.learned_absolute) := by
  rw [embMessage] at h
  obtain ⟨ws, _, h⟩ := bind_ok_inv h
  obtain ⟨word, _, h⟩ := bind_ok_inv h
  rcases hh : models.head? with _ | m0
  · rw [hh] at h
    cases h
  · rw [hh] at h
    obtain ⟨pos, _, h⟩ := bind_ok_inv h
    by_cases hpe : cfg.position_embedding_type = PosEmbK.learned_absolute
    · rw [if_pos hpe] at h
      cases h
      exact ⟨_, rfl, by simp [hasFieldB, hpe]⟩
    · rw [if_neg hpe] at h
      rcases pos with _ | p
      · cases h
        refine ⟨_, rfl, ?_⟩
        simp [hasFieldB]
        intro hc
        exact absurd hc hpe
      · cases h

theorem finalNorm_shape (cfg : Config) (schema : ModelSchema) (models : List Shard)
    (msg : Msg) (h : finalNormMessage cfg schema models = Except.ok msg) :
    ∃ f, msg = Msg.named "final norm" f := by
  rw [finalNormMessage] at h
  rcases hh : models.head? with _ | m0
  · rw [hh] at h; cases h
  · rw [hh] at h
    obtain ⟨w, _, h⟩ := bind_ok_inv h
    by_cases hb : cfg.norm_has_bias = true
    · rw [if_pos hb] at h
      obtain ⟨b, _, h⟩ := map_ok_inv h
      exact ⟨_, h.symm⟩
    · rw [if_neg hb] at h
      cases h
      exact ⟨_, rfl⟩

theorem finalNorm_ok (cfg : Config) (prov : Provider) (hw : WF cfg prov)
    (models : List Shard) (hm : models.head? = some
      (shardAt prov (cfg.pipeline_parallel_size - 1) 0 (vp_size cfg - 1))) :
    ∃ msg, finalNormMessage cfg (denseSchemaOf cfg) models = Except.ok msg := by
  have hlw : ∃ p, lookupStr "weight" (denseSchemaOf cfg).final_norm = some p := by
    cases h : cfg.transformer_impl <;> simp only [denseSchemaOf, h] <;> exact ⟨_, rfl⟩
  have hlb : ∃ p, lookupStr "bias" (denseSchemaOf cfg).final_norm = some p := by
    cases h : cfg.transformer_impl <;> simp only [denseSchemaOf, h] <;> exact ⟨_, rfl⟩
  obtain ⟨pw, hpw⟩ := hlw
  obtain ⟨pb, hpb⟩ := hlb
  rw [finalNormMessage, hm]
  try dsimp only
  rw [getKey_sec _ _ "weight" pw hpw]
  simp only [Except.bind]
  rcases hb : cfg.norm_has_bias with _ | _
  · rw [if_neg (by simp)]
    exact ⟨_, rfl⟩
  · rw [if_pos rfl, getKey_sec _ _ "bias" pb hpb]
    exact ⟨_, rfl⟩

theorem outputSeg_ok (cfg : Config) (prov : Provider) (hw : WF cfg prov) :
    ∃ outs, outputSeg cfg (denseSchemaOf cfg)
      ((List.range cfg.tensor_parallel_size).map
        (fun t => shardAt prov (cfg.pipeline_parallel_size - 1) t (vp_size cfg - 1)))
      = Except.ok outs := by
  have hlw : lookupStr "weight" (denseSchemaOf cfg).output_layer
      = some "output_layer.weight" := by
    cases h : cfg.transformer_impl <;> simp only [denseSchemaOf, h] <;> rfl
  rw [outputSeg]
  rcases hu : cfg.untie_embeddings_and_output_weights with _ | _
  · rw [if_neg (by simp)]
    exact ⟨[], rfl⟩
  · rw [if_pos rfl]
    rw [mapM_ok _ _ (fun m => m.fetch "output_layer.weight")
      (fun m _ => getKey_sec _ m "weight" _ hlw)]
    simp only [Except.bind]
    rw [catOpt0_ok _ (by
      intro t ht
      rw [List.map_map] at ht
      obtain ⟨r, hr, rfl⟩ := List.mem_map.mp ht
      exact hw.out_present hu r (List.mem_range.mp hr))]
    exact ⟨_, rfl⟩

theorem outputSeg_shape (cfg : Config) (schema : ModelSchema) (models : List Shard)
    (outs : List Msg) (h : outputSeg cfg schema models = Except.ok outs) :
    (cfg.untie_embeddings_and_output_weights = true →
      ∃ f, outs = [Msg.named "output layer" f])
    ∧ (cfg.untie_embeddings_and_output_weights = false → outs = []) := by
  rw [outputSeg] at h
  rcases hu : cfg.untie_embeddings_and_output_weights with _ | _
  · rw [if_neg (by simp [hu])] at h
    cases h
    exact ⟨by simp, fun _ => rfl⟩
  · rw [if_pos hu] at h
    obtain ⟨ws, _, h⟩ := bind_ok_inv h
    obtain ⟨w, _, h⟩ := map_ok_inv h
    exact ⟨fun _ => ⟨_, h.symm⟩, by simp⟩

theorem bertSeg_ok (cfg : Config) (prov : Provider) (hw : WF cfg prov)
    (models : List Shard) (hm : models.head? = some
      (shardAt prov (cfg.pipeline_parallel_size - 1) 0 (vp_size cfg - 1))) :
    ∃ outs, bertSeg cfg (denseSchemaOf cfg) models = Except.ok outs := by
  rw [bertSeg]
  rcases hmt : cfg.model_type with _ | _
  · rw [if_neg (by simp [hmt])]
    exact ⟨[], rfl⟩
  · rw [if_pos rfl, hm]
    try dsimp only
    rw [poolerMessage]
    rw [getKey_sec _ _ "weight" "pooler.dense.weight"
      (by cases h : cfg.transformer_impl <;> simp only [denseSchemaOf, h] <;> rfl)]
    simp only [Except.bind]
    rw [getKey_sec _ _ "bias" "pooler.dense.bias"
      (by cases h : cfg.transformer_impl <;> simp only [denseSchemaOf, h] <;> rfl)]
    simp only [Except.map, Except.bind]
    rw [lmHeadMessage]
    rw [getKey_sec _ _ "dense_weight" "lm_head.dense.weight"
      (by cases h : cfg.transformer_impl <;> simp only [denseSchemaOf, h] <;> rfl)]
    simp only [Except.bind]
    rw [getKey_sec _ _ "dense_bias" "lm_head.dense.bias"
      (by cases h : cfg.transformer_impl <;> simp only [denseSchemaOf, h] <;> rfl)]
    simp only [Except.bind]
    rw [getKey_sec _ _ "norm_weight" "lm_head.layer_norm.weight"
      (by cases h : cfg.transformer_impl <;> simp only [denseSchemaOf, h] <;> rfl)]
    simp only [Except.bind]
    rcases hnb : cfg.norm_has_bias with _ | _
    · rw [if_neg (by simp)]
      simp only [Except.map, Except.bind]
      rcases hbh : cfg.bert_binary_head with _ | _
      · rw [if_neg (by simp)]
        exact ⟨_, rfl⟩
      · rw [if_pos rfl, binaryHeadMessage]
        rw [getKey_sec _ _ "weight" "binary_head.weight"
          (by cases h : cfg.transformer_impl <;> simp only [denseSchemaOf, h] <;> rfl)]
        simp only [Except.bind]
        rw [getKey_sec _ _ "bias" "binary_head.bias"
          (by cases h : cfg.transformer_impl <;> simp only [denseSchemaOf, h] <;> rfl)]
        exact ⟨_, rfl⟩
    · rw [if_pos rfl]
      rw [getKey_sec _ _ "norm_bias" "lm_head.layer_norm.bias"
        (by cases h : cfg.transformer_impl <;> simp only [denseSchemaOf, h] <;> rfl)]
      simp only [Except.map, Except.bind]
      rcases hbh : cfg.bert_binary_head with _ | _
      · rw [if_neg (by simp)]
        exact ⟨_, rfl⟩
      · rw [if_pos rfl, binaryHeadMessage]
        rw [getKey_sec _ _ "weight" "binary_head.weight"
          (by cases h : cfg.transformer_impl <;> simp only [denseSchemaOf, h] <;> rfl)]
        simp only [Except.bind]
        rw [getKey_sec _ _ "bias" "binary_head.bias"
          (by cases h : cfg.transformer_impl <;> simp only [denseSchemaOf, h] <;> rfl)]
        exact ⟨_, rfl⟩

theorem bertSeg_shape (cfg : Config) (schema : ModelSchema) (models : List Shard)
    (outs : List Msg) (h : bertSeg cfg schema models = Except.ok outs) :
    (cfg.model_type = ModelTypeK.BERT →
      ∃ pf lf bins, outs = [Msg.named "pooler" pf, Msg.named "lm head" lf] ++ bins
        ∧ (cfg.bert_binary_head = true → ∃ bf, bins = [Msg.named "binary head" bf])
        ∧ (cfg.bert_binary_head = false → bins = []))
    ∧ (cfg.model_type = ModelTypeK.GPT → outs = []) := by
  rw [bertSeg] at h
  rcases hmt : cfg.model_type with _ | _
  · rw [if_neg (by simp [hmt])] at h
    cases h
    exact ⟨by simp [hmt], fun _ => rfl⟩
  · rw [if_pos hmt] at h
    rcases hh : models.head? with _ | m0
    · rw [hh] at h; cases h
    · rw [hh] at h
      obtain ⟨pm, hpm, h⟩ := bind_ok_inv h
      obtain ⟨lh, hlh, h⟩ := bind_ok_inv h
      obtain ⟨bhs, hbhs, h⟩ := map_ok_inv h
      have hpm2 : ∃ pf, pm = Msg.named "pooler" pf := by
        rw [poolerMessage] at hpm
        obtain ⟨w, _, hpm⟩ := bind_ok_inv hpm
        obtain ⟨b, _, hpm⟩ := map_ok_inv hpm
        exact ⟨_, hpm.symm⟩
      have hlh2 : ∃ lf, lh = Msg.named "lm head" lf := by
        rw [lmHeadMessage] at hlh
        obtain ⟨dw, _, hlh⟩ := bind_ok_inv hlh
        obtain ⟨db, _, hlh⟩ := bind_ok_inv hlh
        obtain ⟨nw, _, hlh⟩ := bind_ok_inv hlh
        obtain ⟨nbf, _, hlh⟩ := map_ok_inv hlh
        exact ⟨_, hlh.symm⟩
      obtain ⟨pf, rfl⟩ := hpm2
      obtain ⟨lf, rfl⟩ := hlh2
      refine ⟨fun _ => ⟨pf, lf, bhs, h.symm, ?_, ?_⟩, by simp [hmt]⟩
      · intro hb
        rw [if_pos hb] at hbhs
        obtain ⟨bh, hbh, hbhs⟩ := map_ok_inv hbhs
        have : ∃ bf, bh = Msg.named "binary head" bf := by
          rw [binaryHeadMessage] at hbh
          obtain ⟨w, _, hbh⟩ := bind_ok_inv hbh
          obtain ⟨b, _, hbh⟩ := map_ok_inv hbh
          exact ⟨_, hbh.symm⟩
        obtain ⟨bf, rfl⟩ := this
        exact ⟨bf, hbhs.symm⟩
      · intro hb
        rw [if_neg (by simp [hb])] at hbhs
        cases hbhs
        rfl

theorem stageMatrix_head (prov : Provider) (vpS tpS : Nat) (hv : 0 < vpS) :
    (stageMatrix prov vpS tpS 0).head?
      = some ((List.range tpS).map (fun t => shardAt prov 0 t 0)) := by
  obtain ⟨m, rfl⟩ : ∃ m, vpS = m + 1 := ⟨vpS - 1, by omega⟩
  rw [stageMatrix, List.range_succ_eq_map]
  simp

theorem get_model_schema_dense (cfg : Config)
    (hd : cfg.num_experts = none ∨ cfg.num_experts = some 0) :
    get_model_schema cfg.model_type cfg.transformer_impl cfg.num_experts
      cfg.expert_model_parallel_size = Except.ok (denseSchemaOf cfg) := by
  rcases hd with hd | hd <;> cases h : cfg.transformer_impl <;>
    simp [get_model_schema, hd, h, denseSchemaOf]

theorem logits_guards_false (cfg : Config)
    (hl : cfg.test_logits = true →
      cfg.tensor_parallel_size = 1 ∧ vp_size cfg = 1 ∧ cfg.model_type = ModelTypeK.GPT) :
    (cfg.test_logits && !(logitsGeometryOk cfg)) = false
    ∧ (cfg.test_logits && !(cfg.model_type == ModelTypeK.GPT)) = false := by
  rcases ht : cfg.test_logits with _ | _
  · simp
  · obtain ⟨h1, h2, h3⟩ := hl ht
    constructor
    · simp [logitsGeometryOk, h1, h2]
    · simp [h3]

theorem run_master (cfg : Config) (prov : Provider) (hw : WF cfg prov) :
    ∃ md emb Δ fn outs berts,
      loadCheckpointInner cfg prov
        = ([Msg.meta md, emb] ++ Δ ++ [fn] ++ outs ++ berts
            ++ (if cfg.test_logits then [logitsMessage prov] else []) ++ [Msg.done],
           Outcome.completed)
      ∧ Δ.map nameOf = (List.range
          (vp_size cfg * cfg.pipeline_parallel_size * layersPer cfg)).map
          (fun j => some (layerName j))
      ∧ (∃ ef, emb = Msg.named "embeddings" ef
          ∧ (hasFieldB ef "position embeddings" = true
              ↔ cfg.position_embedding_type = PosEmbK.learned_absolute))
      ∧ (∃ ff, fn = Msg.named "final norm" ff)
      ∧ ((cfg.untie_embeddings_and_output_weights = true →
            ∃ f, outs = [Msg.named "output layer" f])
          ∧ (cfg.untie_embeddings_and_output_weights = false → outs = []))
      ∧ ((cfg.model_type = ModelTypeK.BERT →
            ∃ pf lf bins, berts = [Msg.named "pooler" pf, Msg.named "lm head" lf] ++ bins
              ∧ (cfg.bert_binary_head = true → ∃ bf, bins = [Msg.named "binary head" bf])
              ∧ (cfg.bert_binary_head = false → bins = []))
          ∧ (cfg.model_type = ModelTypeK.GPT → berts = []))
      ∧ md = mkMetadata cfg
          (match computeTrueVocab cfg.true_vocab_size cfg.vocab_file_size with
            | Except.ok v => v
            | Except.error _ => none)
          ⟨some (prov.load 0 0).consumed_train_samples,
           some (prov.load 0 0).consumed_valid_samples⟩ := by
  obtain ⟨tv, htv⟩ := computeTrueVocab_isOk cfg.true_vocab_size cfg.vocab_file_size
  obtain ⟨hg1, hg2⟩ := logits_guards_false cfg hw.logits_ok
  obtain ⟨Δ, st', hloop, hall', hcur', hmsgs', hnames⟩ := vpLoop_master cfg prov hw
  obtain ⟨embm, hemb⟩ := embMessage_ok cfg prov hw.toWFnc
  obtain ⟨ef, hef, hposf⟩ := embMessage_shape cfg (denseSchemaOf cfg) _ embm hemb
  have hcurhead : st'.cur.head? = some (shardAt prov (cfg.pipeline_parallel_size - 1) 0
      (vp_size cfg - 1)) := by
    rw [hcur']
    exact row_head prov _ _ _ hw.tp_pos
  obtain ⟨fnm, hfn⟩ := finalNorm_ok cfg prov hw st'.cur hcurhead
  obtain ⟨ff, hff⟩ := finalNorm_shape cfg (denseSchemaOf cfg) _ fnm hfn
  have houts : ∃ outs, outputSeg cfg (denseSchemaOf cfg) st'.cur = Except.ok outs := by
    rw [hcur']
    exact outputSeg_ok cfg prov hw
  obtain ⟨outs, hout⟩ := houts
  obtain ⟨houtT, houtF⟩ := outputSeg_shape cfg (denseSchemaOf cfg) _ outs hout
  obtain ⟨berts, hbert⟩ := bertSeg_ok cfg prov hw st'.cur hcurhead
  obtain ⟨hbertB, hbertG⟩ := bertSeg_shape cfg (denseSchemaOf cfg) _ berts hbert
  refine ⟨mkMetadata cfg tv ⟨some (prov.load 0 0).consumed_train_samples,
      some (prov.load 0 0).consumed_valid_samples⟩,
    embm, Δ, fnm, outs, berts, ?_, hnames, ⟨ef, hef, hposf⟩, ⟨ff, hff⟩,
    ⟨houtT, houtF⟩, ⟨hbertB, hbertG⟩, by rw [htv]⟩
  rw [loadCheckpointInner, htv]
  try dsimp only
  rw [if_neg (by simp [hg1]), if_neg (by simp [hg2])]
  rw [get_models_init_ok prov (vp_size cfg) cfg.tensor_parallel_size
    (prov.load 0 0).consumed_train_samples (prov.load 0 0).consumed_valid_samples
    hw.tp_pos
    (fun r hr => hw.models_len 0 r hw.pp_pos hr)
    (fun r hr => hw.consumed_train_eq 0 r hw.pp_pos hr)
    (fun r hr => hw.consumed_valid_eq 0 r hw.pp_pos hr)]
  try dsimp only
  rw [stageMatrix_head prov _ _ hw.vp_pos]
  try dsimp only
  rw [get_model_schema_dense cfg hw.dense]
  try dsimp only
  rw [hemb]
  try dsimp only
  rw [hloop]
  try dsimp only
  rw [hfn]
  try dsimp only
  rw [hout]
  try dsimp only
  rw [hbert]
  try dsimp only
  rw [hmsgs']

theorem ppStepEmit_names (cfg : Config) (schema : ModelSchema) (vp pp : Nat)
    (st1 st' : LoopSt) (h : ppStepEmit cfg schema vp pp st1 = (st', none)) :
    ∃ Δ, st'.msgs = st1.msgs ++ Δ
      ∧ Δ.map nameOf = (List.range' st1.total Δ.length).map (fun k => some (layerName k))
      ∧ st'.total = st1.total + Δ.length := by
  rw [ppStepEmit] at h
  rcases h1 : st1.allModels.get? pp with _ | pmx
  · rw [h1] at h; cases h
  · rw [h1] at h
    dsimp only at h
    rcases h2 : pmx.get? vp with _ | models
    · rw [h2] at h; cases h
    · rw [h2] at h
      dsimp only at h
      rcases h3 : models.head? with _ | m0
      · rw [h3] at h; cases h
      · rw [h3] at h
        dsimp only at h
        rcases h4 : stageLayers cfg schema models (List.range (schemaNumLayers m0)) st1.total
          with ⟨ms, fl⟩
        rw [h4] at h
        cases h
        obtain ⟨hn, hlen⟩ := stageLayers_names cfg schema models _ st1.total ms h4
        refine ⟨ms, rfl, ?_, rfl⟩
        rw [hn, names_range']
        congr 1
        rw [hlen, List.length_range]

theorem ppStep_names_of_ok (cfg : Config) (prov : Provider) (schema : ModelSchema)
    (vp pp : Nat) (st st' : LoopSt) (h : ppStep cfg prov schema vp pp st = (st', none)) :
    ∃ Δ, st'.msgs = st.msgs ++ Δ
      ∧ Δ.map nameOf = (List.range' st.total Δ.length).map (fun k => some (layerName k))
      ∧ st'.total = st.total + Δ.length := by
  rw [ppStep] at h
  by_cases hp : pp > 0
  · rw [if_pos hp] at h
    by_cases hv : vp = 0
    · rw [if_pos hv] at h
      rcases hg : get_models prov (vp_size cfg) pp cfg.tensor_parallel_size st.cst
        with f | r
      · rw [hg] at h
        simp [Except.map] at h
      · rw [hg] at h
        simp only [Except.map] at h
        obtain ⟨Δ, hm, hn, ht⟩ := ppStepEmit_names cfg schema vp pp _ st' h
        exact ⟨Δ, hm, hn, ht⟩
    · rw [if_neg hv] at h
      exact ppStepEmit_names cfg schema vp pp st st' h
  · rw [if_neg hp] at h
    exact ppStepEmit_names cfg schema vp pp st st' h

theorem ppLoop_names_of_ok (cfg : Config) (prov : Provider) (schema : ModelSchema)
    (vp : Nat) :
    ∀ (pps : List Nat) (st st' : LoopSt),
    ppLoop cfg prov schema vp pps st = (st', none) →
    ∃ Δ, st'.msgs = st.msgs ++ Δ
      ∧ Δ.map nameOf = (List.range' st.total Δ.length).map (fun k => some (layerName k))
      ∧ st'.total = st.total + Δ.length := by
  intro pps
  induction pps with
  | nil =>
    intro st st' h
    rw [ppLoop] at h
    cases h
    exact ⟨[], by simp, by simp, by simp⟩
  | cons p rest ih =>
    intro st st' h
    rw [ppLoop] at h
    rcases hs : ppStep cfg prov schema vp p st with ⟨st1, fl⟩
    rw [hs] at h
    rcases fl with _ | f
    · obtain ⟨Δ1, hm1, hn1, ht1⟩ := ppStep_names_of_ok cfg prov schema vp p st st1 hs
      obtain ⟨Δ2, hm2, hn2, ht2⟩ := ih st1 st' h
      refine ⟨Δ1 ++ Δ2, ?_, ?_, ?_⟩
      · rw [hm2, hm1, List.append_assoc]
      · rw [List.map_append, hn1, hn2, ht1, List.length_append,
          ← List.map_append, List.range'_append_1, Nat.add_comm Δ2.length Δ1.length]
      · rw [ht2, ht1, List.length_append]
        omega
    · cases h

theorem vpLoop_names_of_ok (cfg : Config) (prov : Provider) (schema : ModelSchema) :
    ∀ (vps : List Nat) (st st' : LoopSt),
    vpLoop cfg prov schema vps st = (st', none) →
    ∃ Δ, st'.msgs = st.msgs ++ Δ
      ∧ Δ.map nameOf = (List.range' st.total Δ.length).map (fun k => some (layerName k))
      ∧ st'.total = st.total + Δ.length := by
  intro vps
  induction vps with
  | nil =>
    intro st st' h
    rw [vpLoop] at h
    cases h
    exact ⟨[], by simp, by simp, by simp⟩
  | cons v rest ih =>
    intro st st' h
    rw [vpLoop] at h
    rcases hs : ppLoop cfg prov schema v (List.range cfg.pipeline_parallel_size) st
      with ⟨st1, fl⟩
    rw [hs] at h
    rcases fl with _ | f
    · obtain ⟨Δ1, hm1, hn1, ht1⟩ := ppLoop_names_of_ok cfg prov schema v _ st st1 hs
      obtain ⟨Δ2, hm2, hn2, ht2⟩ := ih st1 st' h
      refine ⟨Δ1 ++ Δ2, ?_, ?_, ?_⟩
      · rw [hm2, hm1, List.append_assoc]
      · rw [List.map_append, hn1, hn2, ht1, List.length_append,
          ← List.map_append, List.range'_append_1, Nat.add_comm Δ2.length Δ1.length]
      · rw [ht2, ht1, List.length_append]
        omega
    · cases h

/-- C2: every run that completes without a fault pushes, in order: the
metadata record; an embeddings message whose "position embeddings" field is
present iff the position-embedding type is learned_absolute; transformer
layer messages whose global indices form the increasing contiguous sequence
0, 1, ...; a final-norm message; an output-layer message iff embeddings and
output weights are untied; for BERT a pooler message, an lm-head message
and, exactly when the binary-head flag is set, a binary-head message (for
GPT none of these); a logits_check message exactly when requested; and the
sentinel "done". -/
theorem c2_emission_order (cfg : Config) (prov : Provider)
    (h : (load_checkpoint cfg prov).2 = Outcome.completed) :
    ∃ md ef Δ ff outs berts,
      (load_checkpoint cfg prov).1
        = [Msg.meta md, Msg.named "embeddings" ef] ++ Δ
            ++ [Msg.named "final norm" ff] ++ outs ++ berts
            ++ (if cfg.test_logits then [logitsMessage prov] else []) ++ [Msg.done]
      ∧ Δ.map nameOf = (List.range Δ.length).map (fun k => some (layerName k))
      ∧ (hasFieldB ef "position embeddings" = true
          ↔ cfg.position_embedding_type = PosEmbK.learned_absolute)
      ∧ (cfg.untie_embeddings_and_output_weights = true →
          ∃ f, outs = [Msg.named "output layer" f])
      ∧ (cfg.untie_embeddings_and_output_weights = false → outs = [])
      ∧ (cfg.model_type = ModelTypeK.BERT →
          ∃ pf lf bins, berts = [Msg.named "pooler" pf, Msg.named "lm head" lf] ++ bins
            ∧ (cfg.bert_binary_head = true → ∃ bf, bins = [Msg.named "binary head" bf])
            ∧ (cfg.bert_binary_head = false → bins = []))
      ∧ (cfg.model_type = ModelTypeK.GPT → berts = []) := by
  rcases hr : loadCheckpointInner cfg prov with ⟨ms, oc⟩
  have hlc : load_checkpoint cfg prov = match oc with
      | Outcome.raised f => (ms ++ [Msg.exitS], Outcome.raised f)
      | o => (ms, o) := by
    simp only [load_checkpoint, hr]
    cases oc <;> rfl
  rcases oc with _ | _ | f
  · rw [hlc] at h ⊢
    try dsimp only at h ⊢
    rw [loadCheckpointInner] at hr
    rcases htv : computeTrueVocab cfg.true_vocab_size cfg.vocab_file_size with f0 | tv
    · rw [htv] at hr; cases hr
    · rw [htv] at hr
      try dsimp only at hr
      rcases hc1 : cfg.test_logits && !(logitsGeometryOk cfg) with _ | _
      · rw [if_neg (by simp [hc1])] at hr
        rcases hc2 : cfg.test_logits && !(cfg.model_type == ModelTypeK.GPT) with _ | _
        · rw [if_neg (by simp [hc2])] at hr
          rcases hgm : get_models prov (vp_size cfg) 0 cfg.tensor_parallel_size
              ⟨none, none⟩ with f0 | r0
          · rw [hgm] at hr; cases hr
          · rw [hgm] at hr
            rcases r0 with ⟨mx0, cst⟩
            try dsimp only at hr
            rcases hh0 : mx0.head? with _ | models00
            · rw [hh0] at hr; cases hr
            · rw [hh0] at hr
              try dsimp only at hr
              rcases hsc : get_model_schema cfg.model_type cfg.transformer_impl
                  cfg.num_experts cfg.expert_model_parallel_size with f0 | schema
              · rw [hsc] at hr; cases hr
              · rw [hsc] at hr
                try dsimp only at hr
                rcases hem : embMessage cfg schema models00 with f0 | emb
                · rw [hem] at hr; cases hr
                · rw [hem] at hr
                  try dsimp only at hr
                  rcases hvl : vpLoop cfg prov schema (List.range (vp_size cfg))
                      { allModels := [mx0], cst := cst, total := 0,
                        cur := models00, msgs := [] } with ⟨st1, fl⟩
                  rw [hvl] at hr
                  rcases fl with _ | f0
                  · try dsimp only at hr
                    rcases hfn : finalNormMessage cfg schema st1.cur with f0 | fn
                    · rw [hfn] at hr; cases hr
                    · rw [hfn] at hr
                      try dsimp only at hr
                      rcases hout : outputSeg cfg schema st1.cur with f0 | outs
                      · rw [hout] at hr; cases hr
                      · rw [hout] at hr
                        try dsimp only at hr
                        rcases hb : bertSeg cfg schema st1.cur with f0 | berts
                        · rw [hb] at hr; cases hr
                        · rw [hb] at hr
                          try dsimp only at hr
                          cases hr
                          obtain ⟨Δ, hm1, hn1, ht1⟩ :=
                            vpLoop_names_of_ok cfg prov schema _ _ _ hvl
                          rw [List.nil_append] at hm1
                          obtain ⟨ef, hef, hpos⟩ :=
                            embMessage_shape cfg schema models00 emb hem
                          obtain ⟨ff, hff⟩ :=
                            finalNorm_shape cfg schema st1.cur fn hfn
                          obtain ⟨houtT, houtF⟩ :=
                            outputSeg_shape cfg schema st1.cur outs hout
                          obtain ⟨hbB, hbG⟩ :=
                            bertSeg_shape cfg schema st1.cur berts hb
                          refine ⟨mkMetadata cfg tv cst, ef, Δ, ff, outs, berts, ?_, ?_, hpos,
                            houtT, houtF, hbB, hbG⟩
                          · rw [hm1, hef, hff]
                          · rw [hn1, ← List.range_eq_range']
                  · cases hr
        · rw [if_pos hc2] at hr
          cases hr
      · rw [if_pos hc1] at hr
        cases hr
  · rw [hlc] at h
    cases h
  · rw [hlc] at h
    cases h

/-- Witness for C2: the spec's dense-decoder scenario (two tensor-parallel
shards, one stage, two layers) completes and exhibits the stated order. -/
theorem c2_witness :
    (load_checkpoint denseCfg denseProv).2 = Outcome.completed
    ∧ ∃ md ef Δ ff outs berts,
      (load_checkpoint denseCfg denseProv).1
        = [Msg.meta md, Msg.named "embeddings" ef] ++ Δ
            ++ [Msg.named "final norm" ff] ++ outs ++ berts
            ++ (if denseCfg.test_logits then [logitsMessage denseProv] else [])
            ++ [Msg.done]
      ∧ Δ.map nameOf = (List.range Δ.length).map (fun k => some (layerName k))
      ∧ (hasFieldB ef "position embeddings" = true
          ↔ denseCfg.position_embedding_type = PosEmbK.learned_absolute)
      ∧ (denseCfg.untie_embeddings_and_output_weights = true →
          ∃ f, outs = [Msg.named "output layer" f])
      ∧ (denseCfg.untie_embeddings_and_output_weights = false → outs = [])
      ∧ (denseCfg.model_type = ModelTypeK.BERT →
          ∃ pf lf bins, berts = [Msg.named "pooler" pf, Msg.named "lm head" lf] ++ bins
            ∧ (denseCfg.bert_binary_head = true → ∃ bf, bins = [Msg.named "binary head" bf])
            ∧ (denseCfg.bert_binary_head = false → bins = []))
      ∧ (denseCfg.model_type = ModelTypeK.GPT → berts = []) :=
  ⟨rfl, c2_emission_order denseCfg denseProv rfl⟩

theorem strHasPfx_append (p x : String) : strHasPfx p (p ++ x) = true := by
  simp [strHasPfx, String.data_append, List.take_left]

theorem flatMap_congr_on {α β : Type} (l : List α) (f g : α → List β)
    (h : ∀ a ∈ l, f a = g a) : l.flatMap f = l.flatMap g := by
  induction l with
  | nil => rfl
  | cons a t ih =>
    simp only [List.flatMap_cons, h a (by simp)]
    rw [ih (fun b hb => h b (by simp [hb]))]

theorem range_blocks {α : Type} (g : Nat → α) (m : Nat) :
    ∀ (n base : Nat), (List.range n).flatMap
        (fun j => (List.range m).map (fun i => g (base + j * m + i)))
      = (List.range (n * m)).map (fun k => g (base + k)) := by
  intro n
  induction n with
  | zero => intro base; simp
  | succ n ih =>
    intro base
    rw [List.range_succ, List.flatMap_append, ih base, Nat.succ_mul, List.range_add,
      List.map_append, List.map_map]
    congr 1
    simp only [List.flatMap_cons, List.flatMap_nil, List.append_nil]
    exact List.map_congr_left (fun i _ => by
      simp only [Function.comp_apply]
      rw [Nat.add_assoc])

theorem expectedLayerNames_eq (cfg : Config) :
    expectedLayerNames cfg
      = (List.range
          (vp_size cfg * cfg.pipeline_parallel_size * layersPer cfg)).map layerName := by
  rw [expectedLayerNames]
  rw [flatMap_congr_on _ _
    (fun v => (List.range (cfg.pipeline_parallel_size * layersPer cfg)).map
      (fun k => layerName (v * cfg.pipeline_parallel_size * layersPer cfg + k)))
    (fun v _ => range_blocks layerName (layersPer cfg) cfg.pipeline_parallel_size
      (v * cfg.pipeline_parallel_size * layersPer cfg))]
  rw [flatMap_congr_on _ _
    (fun v => (List.range (cfg.pipeline_parallel_size * layersPer cfg)).map
      (fun k => layerName (0 + v * (cfg.pipeline_parallel_size * layersPer cfg) + k)))
    (fun v _ => List.map_congr_left (fun k _ => by
      rw [Nat.mul_assoc, Nat.zero_add]))]
  rw [range_blocks layerName (cfg.pipeline_parallel_size * layersPer cfg)
    (vp_size cfg) 0]
  rw [← Nat.mul_assoc]
  exact List.map_congr_left (fun k _ => by rw [Nat.zero_add])

theorem layer_msgs_all {Δ : List Msg} {N : Nat}
    (h : Δ.map nameOf = (List.range N).map (fun j => some (layerName j))) :
    ∀ m ∈ Δ, isLayerMsg m = true := by
  intro m hm
  obtain ⟨j, hj, rfl⟩ := List.getElem_of_mem hm
  have hN : Δ.length = N := by
    have hl := congrArg List.length h
    simpa using hl
  have hname : nameOf (Δ[j]) = some (layerName j) := by
    have hq := congrArg (fun l => l.get? j) h
    simp only [List.get?_eq_getElem?, List.getElem?_map] at hq
    rw [List.getElem?_eq_getElem hj, List.getElem?_eq_getElem (by rw [List.length_range]; omega)] at hq
    simp only [Option.map_some, List.getElem_range] at hq
    exact Option.some.inj hq
  rcases hm2 : Δ[j] with md | ⟨nm, fs⟩ | _ | _ <;> rw [hm2] at hname <;>
    simp only [nameOf] at hname
  · cases hname
  · simp only [isLayerMsg]
    rw [Option.some.inj hname, layerName]
    exact strHasPfx_append "transformer layer " (toString j)
  · cases hname
  · cases hname

/-- C1 (amended): for every well-formed dense run — any tensor-parallel,
pipeline and virtual-pipeline geometry with an even layer partition and all
merged tensors present — the transformer-layer messages in the emitted
trace are exactly `num_layers` many, each layer exactly once, their names
forming in emission order the contiguous global-index sequence
`vp_rank * pipeline_parallel_size * layers_per_stage
+ pp_rank * layers_per_stage + local_layer_index`. -/
theorem c1_amended (cfg : Config) (prov : Provider) (hw : WF cfg prov) :
    ((load_checkpoint cfg prov).1.filter isLayerMsg).map nameOf
      = (expectedLayerNames cfg).map some
    ∧ ((load_checkpoint cfg prov).1.filter isLayerMsg).length = cfg.num_layers := by
  obtain ⟨md, emb, Δ, fn, outs, berts, heq, hnames, ⟨ef, hef, hpos⟩, ⟨ff, hff⟩,
    ⟨houtT, houtF⟩, ⟨hbB, hbG⟩, hmd⟩ := run_master cfg prov hw
  have hlc : (load_checkpoint cfg prov).1
      = [Msg.meta md, emb] ++ Δ ++ [fn] ++ outs ++ berts
          ++ (if cfg.test_logits then [logitsMessage prov] else []) ++ [Msg.done] := by
    simp only [load_checkpoint, heq]
  have hΔ : Δ.filter isLayerMsg = Δ :=
    List.filter_eq_self.mpr (layer_msgs_all hnames)
  have hΔlen : Δ.length = vp_size cfg * cfg.pipeline_parallel_size * layersPer cfg := by
    have hl := congrArg List.length hnames
    simpa using hl
  have h3 : List.filter isLayerMsg outs = [] := by
    rcases hu : cfg.untie_embeddings_and_output_weights with _ | _
    · rw [houtF hu]
      rfl
    · obtain ⟨f, hf⟩ := houtT hu
      rw [hf]
      rfl
  have h4 : List.filter isLayerMsg berts = [] := by
    rcases hmt : cfg.model_type with _ | _
    · rw [hbG hmt]
      rfl
    · obtain ⟨pf, lf, bins, hb1, hbT, hbF⟩ := hbB hmt
      rcases hbh : cfg.bert_binary_head with _ | _
      · rw [hb1, hbF hbh]
        rfl
      · obtain ⟨bf, hbf⟩ := hbT hbh
        rw [hb1, hbf]
        rfl
  have h5 : List.filter isLayerMsg
      (if cfg.test_logits then [logitsMessage prov] else []) = [] := by
    rcases ht : cfg.test_logits with _ | _ <;> rfl
  have hfilter : (load_checkpoint cfg prov).1.filter isLayerMsg = Δ := by
    rw [hlc, hef, hff]
    simp only [List.filter_append, hΔ, h3, h4, h5]
    have e1 : strHasPfx "transformer layer " "embeddings" = false := by decide
    have e2 : strHasPfx "transformer layer " "final norm" = false := by decide
    simp [List.filter, isLayerMsg, e1, e2]
  constructor
  · rw [hfilter, hnames, expectedLayerNames_eq, List.map_map]
    rfl
  · rw [hfilter, hΔlen, hw.layers_split]
    rw [Nat.mul_comm cfg.pipeline_parallel_size (vp_size cfg)]

theorem vpProv_wf : WF vpCfg vpProv := by
  have hL : layersPer vpCfg = 1 := rfl
  have h2 : vp_size vpCfg = 2 := rfl
  refine ⟨⟨Or.inl rfl, by decide, by decide, by decide, by decide,
    fun _ _ _ _ => rfl, ?_, fun _ _ => rfl, fun h => absurd rfl h,
    ?_, ?_, ?_, ?_,
    fun h => absurd h (by decide), fun h => absurd h (by decide),
    fun h => absurd h (by decide), fun h => absurd h (by decide)⟩,
    fun _ _ _ _ => rfl, fun _ _ _ _ => rfl⟩
  · intro pp tp v hpp htp hv
    rcases v with _ | _ | v
    · rfl
    · rfl
    · rw [h2] at hv
      omega
  all_goals
    intro pp tp v i hpp htp hv hi
  all_goals
    rw [hL] at hi
  all_goals
    have hi0 : i = 0 := by omega
  all_goals
    subst hi0
  all_goals
    rcases v with _ | _ | v
  all_goals
    first
      | rfl
      | (rw [h2] at hv; omega)

/-- Witness for the amended C1 statement: the interleaved run with two
pipeline stages, two virtual passes and four layers. -/
theorem c1_witness :
    ((load_checkpoint vpCfg vpProv).1.filter isLayerMsg).map nameOf
      = (expectedLayerNames vpCfg).map some
    ∧ ((load_checkpoint vpCfg vpProv).1.filter isLayerMsg).length = vpCfg.num_layers :=
  c1_amended vpCfg vpProv vpProv_wf

/-- C7 (amended): contrary to the release discipline the spec describes,
the walker retains every pipeline stage's shard set: in any well-formed
dense run the emission loop finishes with `all_models` holding the stage
matrices of all `pipeline_parallel_size` stages simultaneously — no
stage's shards are released when the walker moves to the next stage. -/
theorem c7_amended (cfg : Config) (prov : Provider) (hw : WF cfg prov) :
    ∃ st', vpLoop cfg prov (denseSchemaOf cfg) (List.range (vp_size cfg))
        { allModels := [stageMatrix prov (vp_size cfg) cfg.tensor_parallel_size 0],
          cst := ⟨some (prov.load 0 0).consumed_train_samples,
            some (prov.load 0 0).consumed_valid_samples⟩,
          total := 0,
          cur := (List.range cfg.tensor_parallel_size).map (fun t => shardAt prov 0 t 0),
          msgs := [] } = (st', none)
      ∧ st'.allModels = (List.range cfg.pipeline_parallel_size).map
          (stageMatrix prov (vp_size cfg) cfg.tensor_parallel_size)
      ∧ st'.allModels.length = cfg.pipeline_parallel_size := by
  obtain ⟨Δ, st', h1, h2, _, _, _⟩ := vpLoop_master cfg prov hw
  refine ⟨st', h1, h2, ?_⟩
  rw [h2]
  simp

theorem pp2_wf : WF pp2Cfg pp2Prov := by
  have hL : layersPer pp2Cfg = 1 := rfl
  have h1 : vp_size pp2Cfg = 1 := rfl
  refine ⟨⟨Or.inl rfl, by decide, by decide, by decide, by decide,
    fun _ _ _ _ => rfl, ?_, fun _ _ => rfl, fun h => absurd rfl h,
    ?_, ?_, ?_, ?_,
    fun h => absurd h (by decide), fun h => absurd h (by decide),
    fun h => absurd h (by decide), fun h => absurd h (by decide)⟩,
    fun _ _ _ _ => rfl, fun _ _ _ _ => rfl⟩
  · intro pp tp v hpp htp hv
    rcases v with _ | v
    · rfl
    · rw [h1] at hv
      omega
  all_goals
    intro pp tp v i hpp htp hv hi
  all_goals
    rw [hL] at hi
  all_goals
    have hi0 : i = 0 := by omega
  all_goals
    subst hi0
  all_goals
    rcases v with _ | v
  all_goals
    first
      | rfl
      | (rw [h1] at hv; omega)

/-- Witness for the amended C7 statement: the two-stage pipeline run keeps
both stages' shard sets cached. -/
theorem c7_witness :
    ∃ st', vpLoop pp2Cfg pp2Prov (denseSchemaOf pp2Cfg) (List.range (vp_size pp2Cfg))
        { allModels := [stageMatrix pp2Prov (vp_size pp2Cfg) pp2Cfg.tensor_parallel_size 0],
          cst := ⟨some (pp2Prov.load 0 0).consumed_train_samples,
            some (pp2Prov.load 0 0).consumed_valid_samples⟩,
          total := 0,
          cur := (List.range pp2Cfg.tensor_parallel_size).map
            (fun t => shardAt pp2Prov 0 t 0),
          msgs := [] } = (st', none)
      ∧ st'.allModels = (List.range pp2Cfg.pipeline_parallel_size).map
          (stageMatrix pp2Prov (vp_size pp2Cfg) pp2Cfg.tensor_parallel_size)
      ∧ st'.allModels.length = pp2Cfg.pipeline_parallel_size :=
  c7_amended pp2Cfg pp2Prov pp2_wf

theorem gmLoop_fault (prov : Provider) (vpS pp : Nat) (t v : Nat) :
    ∀ (rks : List Nat) (acc : List (List Shard)),
    (∀ r ∈ rks, (prov.load pp r).models.length = vpS) →
    (∃ r ∈ rks, (prov.load pp r).consumed_train_samples ≠ t
      ∨ (prov.load pp r).consumed_valid_samples ≠ v) →
    ∃ s, gmLoop prov vpS pp rks ⟨some t, some v⟩ acc
        = Except.error (Fault.assertFail s)
      ∧ (s = "consumed_train_samples" ∨ s = "consumed_valid_samples") := by
  intro rks
  induction rks with
  | nil =>
    intro acc _ hmis
    obtain ⟨r, hr, _⟩ := hmis
    cases hr
  | cons r rest ih =>
    intro acc hlen hmis
    by_cases hct : (prov.load pp r).consumed_train_samples = t
    · by_cases hcv : (prov.load pp r).consumed_valid_samples = v
      · rw [gmLoop, checkConsumed_ok t v _ hct hcv,
          appendModels_ok vpS _ acc (hlen r (List.mem_cons_self r rest))]
        refine ih _ (fun b hb => hlen b (List.mem_cons_of_mem r hb)) ?_
        obtain ⟨r0, hr0, hne⟩ := hmis
        rcases List.mem_cons.mp hr0 with rfl | hr0t
        · rcases hne with hne | hne
          · exact absurd hct hne
          · exact absurd hcv hne
        · exact ⟨r0, hr0t, hne⟩
      · refine ⟨"consumed_valid_samples", ?_, Or.inr rfl⟩
        rw [gmLoop]
        have hcc : checkConsumed ⟨some t, some v⟩ (prov.load pp r)
            = Except.error (Fault.assertFail "consumed_valid_samples") := by
          simp [checkConsumed, hct, hcv]
        rw [hcc]
    · refine ⟨"consumed_train_samples", ?_, Or.inl rfl⟩
      rw [gmLoop]
      have hcc : checkConsumed ⟨some t, some v⟩ (prov.load pp r)
          = Except.error (Fault.assertFail "consumed_train_samples") := by
        simp [checkConsumed, hct]
      rw [hcc]

theorem get_models_fault (prov : Provider) (vpS pp count : Nat) (t v : Nat)
    (hlen : ∀ r, r < count → (prov.load pp r).models.length = vpS)
    (hmis : ∃ r, r < count ∧ ((prov.load pp r).consumed_train_samples ≠ t
      ∨ (prov.load pp r).consumed_valid_samples ≠ v)) :
    ∃ s, get_models prov vpS pp count ⟨some t, some v⟩
        = Except.error (Fault.assertFail s)
      ∧ (s = "consumed_train_samples" ∨ s = "consumed_valid_samples") := by
  rw [get_models]
  refine gmLoop_fault prov vpS pp t v (List.range count) _
    (fun r hr => hlen r (List.mem_range.mp hr)) ?_
  obtain ⟨r, hr, hne⟩ := hmis
  exact ⟨r, List.mem_range.mpr hr, hne⟩

theorem ppLoop_append (cfg : Config) (prov : Provider) (schema : ModelSchema)
    (vp : Nat) :
    ∀ (l1 l2 : List Nat) (st : LoopSt),
    ppLoop cfg prov schema vp (l1 ++ l2) st
      = match ppLoop cfg prov schema vp l1 st with
        | (st1, some f) => (st1, some f)
        | (st1, none) => ppLoop cfg prov schema vp l2 st1 := by
  intro l1
  induction l1 with
  | nil =>
    intro l2 st
    rfl
  | cons p rest ih =>
    intro l2 st
    rw [List.cons_append, ppLoop]
    rcases hs : ppStep cfg prov schema vp p st with ⟨st1, fl⟩
    rcases fl with _ | f
    · dsimp only
      rw [ih l2 st1]
      conv_rhs => rw [ppLoop, hs]
    · dsimp only
      conv_rhs => rw [ppLoop, hs]

/-- C4: if, while loading the shards of a pipeline stage, two
tensor-parallel shards report different consumed-train-sample or
consumed-valid-sample counters, the run fails the fatal consumed-samples
assertion before any transformer-layer message of that stage is emitted;
the top-level handler pushes the "exit" sentinel (the trace's last
message) and re-raises, and no "done" marker ever arrives: the trace's
transformer-layer messages are exactly those of the stages before the
offending one. -/
theorem c4_consumed_mismatch_fatal (cfg : Config) (prov : Provider)
    (hw : WFnc cfg prov) (pp' : Nat)
    (hpp0 : 0 < pp') (hpp : pp' < cfg.pipeline_parallel_size)
    (huni : ∀ p r, p < pp' → r < cfg.tensor_parallel_size →
      (prov.load p r).consumed_train_samples = (prov.load 0 0).consumed_train_samples
      ∧ (prov.load p r).consumed_valid_samples
        = (prov.load 0 0).consumed_valid_samples)
    (hmis : ∃ r, r < cfg.tensor_parallel_size ∧
      ((prov.load pp' r).consumed_train_samples
          ≠ (prov.load 0 0).consumed_train_samples
       ∨ (prov.load pp' r).consumed_valid_samples
          ≠ (prov.load 0 0).consumed_valid_samples)) :
    ∃ s, (load_checkpoint cfg prov).2 = Outcome.raised (Fault.assertFail s)
      ∧ (s = "consumed_train_samples" ∨ s = "consumed_valid_samples")
      ∧ Msg.done ∉ (load_checkpoint cfg prov).1
      ∧ (load_checkpoint cfg prov).1.getLast? = some Msg.exitS
      ∧ ((load_checkpoint cfg prov).1.filter isLayerMsg).map nameOf
          = (List.range (pp' * layersPer cfg)).map
              (fun k => some (layerName k)) := by
  obtain ⟨tv, htv⟩ := computeTrueVocab_isOk cfg.true_vocab_size cfg.vocab_file_size
  obtain ⟨hg1, hg2⟩ := logits_guards_false cfg hw.logits_ok
  obtain ⟨embm, hemb⟩ := embMessage_ok cfg prov hw
  obtain ⟨ef, hef, hposf⟩ := embMessage_shape cfg (denseSchemaOf cfg) _ embm hemb
  obtain ⟨Δ1, st1, hpass, hall1, hcst1, htot1, hmsgs1, hn1, hcur1⟩ :=
    ppLoop_vp0_ok cfg prov hw pp' 0 (by omega)
      (fun p r hp hr => huni p r (by omega) hr)
      { allModels := [stageMatrix prov (vp_size cfg) cfg.tensor_parallel_size 0],
        cst := ⟨some (prov.load 0 0).consumed_train_samples,
          some (prov.load 0 0).consumed_valid_samples⟩,
        total := 0,
        cur := (List.range cfg.tensor_parallel_size).map (fun t => shardAt prov 0 t 0),
        msgs := [] }
      rfl rfl
  try dsimp only at hall1 hcst1 htot1 hmsgs1 hn1 hcur1
  obtain ⟨s, hgmf, hs⟩ := get_models_fault prov (vp_size cfg) pp'
    cfg.tensor_parallel_size
    (prov.load 0 0).consumed_train_samples (prov.load 0 0).consumed_valid_samples
    (fun r hr => hw.models_len pp' r hpp hr) hmis
  have hstep : ppStep cfg prov (denseSchemaOf cfg) 0 pp' st1
      = (st1, some (Fault.assertFail s)) := by
    rw [ppStep, if_pos hpp0, if_pos rfl, hcst1, hgmf]
    rfl
  have hpl : ppLoop cfg prov (denseSchemaOf cfg) 0
      (List.range cfg.pipeline_parallel_size)
      { allModels := [stageMatrix prov (vp_size cfg) cfg.tensor_parallel_size 0],
        cst := ⟨some (prov.load 0 0).consumed_train_samples,
          some (prov.load 0 0).consumed_valid_samples⟩,
        total := 0,
        cur := (List.range cfg.tensor_parallel_size).map (fun t => shardAt prov 0 t 0),
        msgs := [] }
      = (st1, some (Fault.assertFail s)) := by
    have h1 : 0 + 1 * pp' = pp' := by omega
    have h2 : cfg.pipeline_parallel_size - pp' + pp' = cfg.pipeline_parallel_size := by
      omega
    have hsplit := List.range'_append 0 pp' (cfg.pipeline_parallel_size - pp') 1
    rw [h1, h2] at hsplit
    rw [List.range_eq_range', ← hsplit, ppLoop_append, hpass]
    try dsimp only
    obtain ⟨k, hk⟩ : ∃ k, cfg.pipeline_parallel_size - pp' = k + 1 :=
      ⟨cfg.pipeline_parallel_size - pp' - 1, by omega⟩
    rw [hk, show List.range' pp' (k + 1) = pp' :: List.range' (pp' + 1) k from rfl,
      ppLoop, hstep]
  obtain ⟨m, hm⟩ : ∃ m, vp_size cfg = m + 1 := ⟨vp_size cfg - 1, by
    have := hw.vp_pos; omega⟩
  have hvl : vpLoop cfg prov (denseSchemaOf cfg) (List.range (vp_size cfg))
      { allModels := [stageMatrix prov (vp_size cfg) cfg.tensor_parallel_size 0],
        cst := ⟨some (prov.load 0 0).consumed_train_samples,
          some (prov.load 0 0).consumed_valid_samples⟩,
        total := 0,
        cur := (List.range cfg.tensor_parallel_size).map (fun t => shardAt prov 0 t 0),
        msgs := [] }
      = (st1, some (Fault.assertFail s)) := by
    have hrange : List.range (vp_size cfg) = 0 :: List.range' 1 m := by
      rw [hm, List.range_eq_range']
      rfl
    rw [hrange, vpLoop, hpl]
  have hinner : loadCheckpointInner cfg prov
      = ([Msg.meta (mkMetadata cfg tv
            ⟨some (prov.load 0 0).consumed_train_samples,
             some (prov.load 0 0).consumed_valid_samples⟩), embm] ++ Δ1,
         Outcome.raised (Fault.assertFail s)) := by
    rw [loadCheckpointInner, htv]
    try dsimp only
    rw [if_neg (by simp [hg1]), if_neg (by simp [hg2])]
    rw [get_models_init_ok prov (vp_size cfg) cfg.tensor_parallel_size
      (prov.load 0 0).consumed_train_samples (prov.load 0 0).consumed_valid_samples
      hw.tp_pos
      (fun r hr => hw.models_len 0 r hw.pp_pos hr)
      (fun r hr => (huni 0 r hpp0 hr).1)
      (fun r hr => (huni 0 r hpp0 hr).2)]
    try dsimp only
    rw [stageMatrix_head prov _ _ hw.vp_pos]
    try dsimp only
    rw [get_model_schema_dense cfg hw.dense]
    try dsimp only
    rw [hemb]
    try dsimp only
    rw [hvl]
    try dsimp only
    rw [hmsgs1]
    rfl
  have hload : load_checkpoint cfg prov
      = (([Msg.meta (mkMetadata cfg tv
            ⟨some (prov.load 0 0).consumed_train_samples,
             some (prov.load 0 0).consumed_valid_samples⟩), embm] ++ Δ1)
           ++ [Msg.exitS],
         Outcome.raised (Fault.assertFail s)) := by
    rw [load_checkpoint, hinner]
  have hn1' : Δ1.map nameOf = (List.range (pp' * layersPer cfg)).map
      (fun k => some (layerName k)) := by
    rw [hn1, ← List.range_eq_range']
  have hlm : ∀ x ∈ Δ1, isLayerMsg x = true := layer_msgs_all hn1'
  refine ⟨s, by rw [hload], hs, ?_, ?_, ?_⟩
  · rw [hload]
    intro hd
    try dsimp only at hd
    rcases List.mem_append.mp hd with hd | hd
    · rcases List.mem_append.mp hd with hd | hd
      · rw [hef] at hd
        simp at hd
      · have := hlm _ hd
        simp [isLayerMsg] at this
    · simp at hd
  · rw [hload]
    try dsimp only
    exact List.getLast?_concat _
  · rw [hload]
    try dsimp only
    rw [List.filter_append, List.filter_append,
      List.filter_eq_self.mpr hlm, hef]
    have e1 : List.filter isLayerMsg [Msg.meta (mkMetadata cfg tv
        ⟨some (prov.load 0 0).consumed_train_samples,
         some (prov.load 0 0).consumed_valid_samples⟩),
        Msg.named "embeddings" ef] = [] := by
      have f1 : strHasPfx "transformer layer " "embeddings" = false := by decide
      simp [List.filter, isLayerMsg, f1]
    rw [e1]
    have e2 : List.filter isLayerMsg [Msg.exitS] = [] := rfl
    rw [e2]
    simp [hn1']

theorem mm_wfnc : WFnc mmCfg mmProv := by
  have hL : layersPer mmCfg = 1 := rfl
  have h1 : vp_size mmCfg = 1 := rfl
  refine ⟨Or.inl rfl, by decide, by decide, by decide, by decide,
    fun _ _ _ _ => rfl, ?_, fun _ _ => rfl, fun h => absurd rfl h,
    ?_, ?_, ?_, ?_,
    fun h => absurd h (by decide), fun h => absurd h (by decide),
    fun h => absurd h (by decide), fun h => absurd h (by decide)⟩
  · intro pp tp v hpp htp hv
    rcases v with _ | v
    · rfl
    · rw [h1] at hv
      omega
  all_goals
    intro pp tp v i hpp htp hv hi
  all_goals
    rw [hL] at hi
  all_goals
    have hi0 : i = 0 := by omega
  all_goals
    subst hi0
  all_goals
    rcases v with _ | v
  all_goals
    first
      | rfl
      | (rw [h1] at hv; omega)

/-- Witness for C4: two pipeline stages, two tensor-parallel ranks; stage
1 rank 1 reports 999 consumed train samples against the reference 100. -/
theorem c4_witness :
    ∃ s, (load_checkpoint mmCfg mmProv).2 = Outcome.raised (Fault.assertFail s)
      ∧ (s = "consumed_train_samples" ∨ s = "consumed_valid_samples")
      ∧ Msg.done ∉ (load_checkpoint mmCfg mmProv).1
      ∧ (load_checkpoint mmCfg mmProv).1.getLast? = some Msg.exitS
      ∧ ((load_checkpoint mmCfg mmProv).1.filter isLayerMsg).map nameOf
          = (List.range (1 * layersPer mmCfg)).map (fun k => some (layerName k)) :=
  c4_consumed_mismatch_fatal mmCfg mmProv mm_wfnc 1 (by decide) (by decide)
    (fun p r hp hr => by
      have hp0 : p = 0 := by omega
      subst hp0
      constructor <;> simp [mmProv])
    ⟨1, by decide, Or.inl (by decide)⟩

/-- C8: for every tensor-parallel shard list, when linear bias is enabled
the column-parallel biases — the attention output-projection bias ("dense
bias") and the second MLP linear bias ("mlp l1 bias") — appear in the
layer message as exactly the tensor-parallel rank-0 shard's copy, never a
concatenation over the shards. -/
theorem c8_column_parallel_bias (cfg : Config) (models : List Shard) (i : Nat)
    (m0 : Shard) (hm : models.head? = some m0)
    (hqw : ∀ m ∈ models, (roleVal cfg m i "self_attn_qkv_weight").isSome = true)
    (hdw : ∀ m ∈ models, (roleVal cfg m i "self_attn_proj_weight").isSome = true)
    (hl0 : ∀ m ∈ models, (roleVal cfg m i "mlp_fc1_weight").isSome = true)
    (hl1 : ∀ m ∈ models, (roleVal cfg m i "mlp_fc2_weight").isSome = true)
    (hqb : cfg.add_qkv_bias = true →
      ∀ m ∈ models, (roleVal cfg m i "self_attn_qkv_bias").isSome = true)
    (hl0b : cfg.add_bias_linear = true →
      ∀ m ∈ models, (roleVal cfg m i "mlp_fc1_bias").isSome = true)
    (hbl : cfg.add_bias_linear = true) :
    ∃ fields, buildLayerMessage cfg (denseSchemaOf cfg) models i = Except.ok fields
      ∧ List.lookup "dense bias" fields
          = some (TVal.val (roleVal cfg m0 i "self_attn_proj_bias"))
      ∧ List.lookup "mlp l1 bias" fields
          = some (TVal.val (roleVal cfg m0 i "mlp_fc2_bias")) := by
  obtain ⟨fields, hf, hlk⟩ :=
    buildLayerMessage_ok cfg models i m0 hm hqw hdw hl0 hl1 hqb hl0b
  exact ⟨fields, hf, (hlk hbl).1, (hlk hbl).2⟩

/-- Witness for C8: two biased tensor-parallel shards whose
output-projection biases are [[40]] and [[41]] and second-MLP biases
[[60]] and [[61]]; the layer message keeps exactly rank 0's [[40]] and
[[60]]. -/
theorem c8_witness :
    biasCfg.add_bias_linear = true
    ∧ roleVal biasCfg (Shard.mk 0 1 (biasFetch 0)) 0 "self_attn_proj_bias"
        = some [[40]]
    ∧ roleVal biasCfg (Shard.mk 0 1 (biasFetch 0)) 0 "mlp_fc2_bias" = some [[60]]
    ∧ ∃ fields, buildLayerMessage biasCfg (denseSchemaOf biasCfg) biasModels 0
        = Except.ok fields
      ∧ List.lookup "dense bias" fields
          = some (TVal.val (roleVal biasCfg (Shard.mk 0 1 (biasFetch 0)) 0
              "self_attn_proj_bias"))
      ∧ List.lookup "mlp l1 bias" fields
          = some (TVal.val (roleVal biasCfg (Shard.mk 0 1 (biasFetch 0)) 0
              "mlp_fc2_bias")) :=
  ⟨rfl, rfl, rfl,
    c8_column_parallel_bias biasCfg biasModels 0 (Shard.mk 0 1 (biasFetch 0)) rfl
      (fun m hm => by simp [biasModels] at hm; rcases hm with rfl | rfl <;> rfl)
      (fun m hm => by simp [biasModels] at hm; rcases hm with rfl | rfl <;> rfl)
      (fun m hm => by simp [biasModels] at hm; rcases hm with rfl | rfl <;> rfl)
      (fun m hm => by simp [biasModels] at hm; rcases hm with rfl | rfl <;> rfl)
      (fun h => absurd h (by decide))
      (fun _ m hm => by simp [biasModels] at hm; rcases hm with rfl | rfl <;> rfl)
      rfl⟩
